import Mathlib

/-!
Verification development for the 16-bit virtual machine CPU core
(`src/cpu.rs`, `src/instructions.rs`, `src/create_memory.rs`).

The machine state is embedded shallowly.  The register file is a
`List Nat` of length 12, mirroring the `Vec<u16>` built by
`create_registers`; the 65536-byte zero-initialized memory of
`create_memory(256*256)` is represented by a write log (an association
list from address to byte value, most recent write first, default 0),
which denotes the same address → byte function the `Vec<u8>` holds.
Every fallible operation returns a result that carries the mutated
state, so partial mutation before an error is preserved exactly as
Rust's `&mut self` methods preserve it.  All u8/u16 arithmetic is
modelled on Nat with explicit reductions modulo 256 / 65536 at the
points where the Rust types wrap (release-profile wrapping semantics).
-/

/-- The twelve named registers of `cpu.rs` (`enum RegisterName`). -/
inductive RegisterName where
  | Ip
  | Acc
  | R1
  | R2
  | R3
  | R4
  | R5
  | R6
  | R7
  | R8
  | Sp
  | Fp
deriving DecidableEq, Repr

/-- The error enum of `cpu.rs` (`enum CpuError`).  Note that the source
enum has no stack-overflow or stack-underflow variant. -/
inductive CpuError where
  | RegisterNameDoesNotExist
  | RegisterOutOfBounds
  | MemoryOutOfBounds
  | InvalidInstruction
deriving DecidableEq, Repr

/-- The instruction tags matched by `Cpu::execute` in `cpu.rs`.  The
`define_instruction!` invocation in `instructions.rs` only lists the
first six, but `cpu.rs` and `cpu_tests.rs` use all twelve variants. -/
inductive Instruction where
  | MoveLiteralToRegister
  | MoveRegisterToRegister
  | MoveRegisterToMemory
  | MoveMemoryToRegister
  | AddRegisterToRegister
  | JumpNotEq
  | PushLiteral
  | PushRegister
  | Pop
  | CallLiteral
  | CallRegister
  | Return
deriving DecidableEq, Repr

/-- `TryFrom<u8> for Instruction` as generated by the
`define_instruction!` invocation in `instructions.rs`: only the six
opcode bytes 0x10..0x15 are listed there; every other byte takes the
catch-all arm `Err(CpuError::InvalidInstruction)`. -/
def instructionTryFrom (value : Nat) : Except CpuError Instruction :=
  if value = 0x10 then .ok .MoveLiteralToRegister
  else if value = 0x11 then .ok .MoveRegisterToRegister
  else if value = 0x12 then .ok .MoveRegisterToMemory
  else if value = 0x13 then .ok .MoveMemoryToRegister
  else if value = 0x14 then .ok .AddRegisterToRegister
  else if value = 0x15 then .ok .JumpNotEq
  else .error .InvalidInstruction

/-- Machine state: `struct Cpu` of `cpu.rs` with `create_memory(256*256)`
memory.  `memory` is the write log of the zero-initialized 65536-byte
array; `registers` lists the 16-bit register values by index in
declaration order (Ip=0, Acc=1, R1=2, .., R8=9, Sp=10, Fp=11). -/
structure Cpu where
  memory : List (Nat × Nat)
  registers : List Nat
  stack_frame_size : Nat
deriving DecidableEq, Repr

/-- The byte a write log denotes at an address: the most recent write to
that address, or 0 (the `create_memory` fill value) if never written. -/
def memRead : List (Nat × Nat) → Nat → Nat
  | [], _ => 0
  | (k, v) :: rest, a => if k = a then v else memRead rest a

/-- Result of running a CPU operation: like Rust's `Result<T, CpuError>`
returned from a `&mut self` method, the state is available in both the
success and the error case (mutations made before an early `?` return
are kept). -/
inductive Res (α : Type) where
  | ok : α → Cpu → Res α
  | err : CpuError → Cpu → Res α
deriving DecidableEq, Repr

/-- A stateful, fallible CPU operation (`fn(&mut self) -> Result<α, CpuError>`). -/
def M (α : Type) : Type := Cpu → Res α

def M.pure (a : α) : M α := fun s => .ok a s

def M.bind (m : M α) (f : α → M β) : M β := fun s =>
  match m s with
  | .ok a s' => f a s'
  | .err e s' => .err e s'

instance : Monad M where
  pure := M.pure
  bind := M.bind

/-- Early-return with an error (Rust `return Err(e)` / failing `?`). -/
def mThrow (e : CpuError) : M α := fun s => .err e s

/-- Lift a pure `Result` (from a `&self` method) into the stateful monad. -/
def liftE (e : Except CpuError α) : M α := fun s =>
  match e with
  | .ok a => .ok a s
  | .error er => .err er s

/-- Read the whole state (access to a `self` field). -/
def getCpu : M Cpu := fun s => .ok s s

/-- Apply a pure state mutation (assignment to a `self` field). -/
def modifyCpu (f : Cpu → Cpu) : M Unit := fun s => .ok () (f s)

/-- The `register_names` vector built in `Cpu::new`, in order. -/
def register_names : List RegisterName :=
  [.Ip, .Acc, .R1, .R2, .R3, .R4, .R5, .R6, .R7, .R8, .Sp, .Fp]

/-- The `register_map` of `Cpu::new`: each name maps to its index in
`register_names` (built there by `enumerate`). -/
def registerMapGet (name : RegisterName) : Option Nat :=
  List.findIdx? (fun x => x = name) register_names

/-- `Cpu::get_register`: map lookup (else `RegisterNameDoesNotExist`),
then `Vec::get` on the register vector (else `RegisterOutOfBounds`). -/
def get_register (name : RegisterName) : M Nat := fun s =>
  match registerMapGet name with
  | none => .err .RegisterNameDoesNotExist s
  | some i =>
    match s.registers.get? i with
    | some v => .ok v s
    | none => .err .RegisterOutOfBounds s

/-- `Cpu::set_register`: map lookup, then direct index assignment
`self.registers[i] = value` (the index is always in range because the
map only holds indices below the vector length). -/
def set_register (name : RegisterName) (value : Nat) : M Unit := fun s =>
  match registerMapGet name with
  | none => .err .RegisterNameDoesNotExist s
  | some i => .ok () { s with registers := s.registers.set i value }

/-- `memory.borrow().get(a).ok_or(CpuError::MemoryOutOfBounds)` with the
65536-byte memory of the test harness. -/
def memGet (a : Nat) : M Nat := fun s =>
  if a < 65536 then .ok (memRead s.memory a) s else .err .MemoryOutOfBounds s

/-- `Cpu::fetch`: read `Ip`, store `Ip + 1` back (u16 add), then read the
byte at the old `Ip`.  Note the `Ip` write happens before the memory
read, exactly as in the source. -/
def fetch : M Nat := do
  let next_instruction_address ← get_register .Ip
  set_register .Ip ((next_instruction_address + 1) % 65536)
  memGet next_instruction_address

/-- `Cpu::fetch16`: advance `Ip` by 2, then read two bytes and combine
them big-endian; `(byte1 as u16) << 8 | byte2 as u16` equals
`byte1 * 256 + byte2` because `byte2 : u8` is below 256, so the OR is on
disjoint bits. -/
def fetch16 : M Nat := do
  let next_instruction_address ← get_register .Ip
  set_register .Ip ((next_instruction_address + 2) % 65536)
  let byte1 ← memGet next_instruction_address
  let byte2 ← memGet (next_instruction_address + 1)
  pure (byte1 * 256 + byte2)

/-- `Cpu::get_memory_16` (a `&self` method): two checked byte reads at
`a` and `a + 1` (usize addition, no wrap), combined big-endian. -/
def get_memory_16 (instruction_address : Nat) (s : Cpu) : Except CpuError Nat :=
  if instruction_address < 65536 then
    if instruction_address + 1 < 65536 then
      .ok (memRead s.memory instruction_address * 256 +
           memRead s.memory (instruction_address + 1))
    else .error .MemoryOutOfBounds
  else .error .MemoryOutOfBounds

/-- `Cpu::set_memory16`: writes `value & 0xFF` at `address` and
`(value >> 8) & 0xFF` at `address + 1` (u16 addition, wraps), via
unchecked indexing; the low byte goes to the lower address. -/
def set_memory16 (address value : Nat) : M Unit := fun s =>
  .ok () { s with memory :=
    ((address + 1) % 65536, value / 256 % 256) :: (address, value % 256) :: s.memory }

/-- `Cpu::fetch_register_index`: fetch one byte and reduce it modulo
`register_names.len()`. -/
def fetch_register_index : M Nat := do
  let b ← fetch
  pure (b % register_names.length)

/-- `Cpu::get_register_name` (a `&self` method): `register_names.get`
with `RegisterOutOfBounds` on a missing index. -/
def get_register_name (register_index : Nat) : Except CpuError RegisterName :=
  match register_names.get? register_index with
  | some r => .ok r
  | none => .error .RegisterOutOfBounds

/-- `Cpu::push`: write the value at `Sp`, move `Sp` down by 2 (u16
wrapping subtraction), count two more frame bytes (u16 wrapping add). -/
def push (value : Nat) : M Unit := do
  let sp_address ← get_register .Sp
  set_memory16 sp_address value
  set_register .Sp ((sp_address + 65534) % 65536)
  modifyCpu (fun s => { s with stack_frame_size := (s.stack_frame_size + 2) % 65536 })

/-- `Cpu::pop`: move `Sp` up by 2 (u16 wrapping add), count two fewer
frame bytes (u16 wrapping subtraction), then read the 16-bit value at
the new `Sp` via `get_memory_16`. -/
def pop : M Nat := do
  let sp ← get_register .Sp
  let next_sp_address := (sp + 2) % 65536
  set_register .Sp next_sp_address
  modifyCpu (fun s => { s with stack_frame_size := (s.stack_frame_size + 65534) % 65536 })
  let s ← getCpu
  liftE (get_memory_16 next_sp_address s)

/-- `Cpu::push_state`: push `R1..R8`, then `Ip`, then the running frame
byte counter plus 2; point `Fp` at the new `Sp`; reset the counter. -/
def push_state : M Unit := do
  push (← get_register .R1)
  push (← get_register .R2)
  push (← get_register .R3)
  push (← get_register .R4)
  push (← get_register .R5)
  push (← get_register .R6)
  push (← get_register .R7)
  push (← get_register .R8)
  push (← get_register .Ip)
  let s ← getCpu
  push ((s.stack_frame_size + 2) % 65536)
  let stack_pointer_value ← get_register .Sp
  set_register .Fp stack_pointer_value
  modifyCpu (fun st => { st with stack_frame_size := 0 })

/-- The `for _ in 0..number_of_args { self.pop()?; }` loop of
`Cpu::pop_state`. -/
def popN : Nat → M Unit
  | 0 => pure ()
  | n + 1 => do
    let _ ← pop
    popN n

/-- `Cpu::pop_state`: reset `Sp` to `Fp`, pop the frame-size word into
`stack_frame_size`, pop `Ip` and `R8..R1`, pop the argument count and
that many arguments, then set `Fp` to its old value plus the popped
frame-size word shifted right by 8 (the source's compensating shift for
its byte-order mismatch, applied to a local copy). -/
def pop_state : M Unit := do
  let frame_pointer_address ← get_register .Fp
  set_register .Sp frame_pointer_address
  let v ← pop
  modifyCpu (fun s => { s with stack_frame_size := v })
  let ip_pop ← pop
  set_register .Ip ip_pop
  let r8_pop ← pop
  set_register .R8 r8_pop
  let r7_pop ← pop
  set_register .R7 r7_pop
  let r6_pop ← pop
  set_register .R6 r6_pop
  let r5_pop ← pop
  set_register .R5 r5_pop
  let r4_pop ← pop
  set_register .R4 r4_pop
  let r3_pop ← pop
  set_register .R3 r3_pop
  let r2_pop ← pop
  set_register .R2 r2_pop
  let r1_pop ← pop
  set_register .R1 r1_pop
  let number_of_args ← pop
  popN number_of_args
  set_register .Fp ((frame_pointer_address + (v >>> 8)) % 65536)

/-- `Cpu::execute`: one arm per instruction tag, in source order. -/
def execute (instruction : Instruction) : M Unit :=
  match instruction with
  | .MoveLiteralToRegister => do
    let literal ← fetch16
    let register_index ← fetch_register_index
    match register_names.get? register_index with
    | none => mThrow .RegisterOutOfBounds
    | some register => set_register register literal
  | .MoveRegisterToRegister => do
    let from_register_index ← fetch_register_index
    match register_names.get? from_register_index with
    | none => mThrow .RegisterOutOfBounds
    | some from_register => do
      let from_value ← get_register from_register
      let to_register_index ← fetch_register_index
      match register_names.get? to_register_index with
      | none => mThrow .RegisterOutOfBounds
      | some to_register => set_register to_register from_value
  | .MoveRegisterToMemory => do
    let register_index ← fetch_register_index
    match register_names.get? register_index with
    | none => mThrow .RegisterOutOfBounds
    | some register => do
      let register_value ← get_register register
      let address ← fetch16
      -- first_byte = value & 0xFF at address, second_byte = (value >> 8) & 0xFF
      -- at address + 1 (usize addition): low byte at the lower address.
      modifyCpu (fun s => { s with memory :=
        (address + 1, register_value / 256 % 256) ::
        (address, register_value % 256) :: s.memory })
  | .MoveMemoryToRegister => do
    let address ← fetch16
    let register_index ← fetch_register_index
    match register_names.get? register_index with
    | none => mThrow .RegisterOutOfBounds
    | some register => do
      let s ← getCpu
      -- combined = (byte2 << 8) | byte1: the byte at the higher address
      -- is the high byte (little-endian read, the source's live arm).
      let combined_bytes := memRead s.memory (address + 1) * 256 + memRead s.memory address
      set_register register combined_bytes
  | .AddRegisterToRegister => do
    let register1 ← fetch_register_index
    let register2 ← fetch_register_index
    let s ← getCpu
    match s.registers.get? register1 with
    | none => mThrow .RegisterOutOfBounds
    | some register_value1 =>
      match s.registers.get? register2 with
      | none => mThrow .RegisterOutOfBounds
      | some register_value2 =>
        set_register .Acc ((register_value1 + register_value2) % 65536)
  | .JumpNotEq => do
    let value ← fetch16
    let address ← fetch16
    let register_value ← get_register .Acc
    if value ≠ register_value then set_register .Ip address
    else pure ()
  | .PushLiteral => do
    let value ← fetch16
    push value
  | .PushRegister => do
    let register_index ← fetch_register_index
    let register_name ← liftE (get_register_name register_index)
    let register_value ← get_register register_name
    push register_value
  | .Pop => do
    let register_index ← fetch_register_index
    let value ← pop
    modifyCpu (fun s => { s with registers := s.registers.set register_index value })
  | .CallLiteral => do
    let address ← fetch16
    push_state
    set_register .Ip address
  | .CallRegister => do
    let register_index ← fetch_register_index
    let register_name ← liftE (get_register_name register_index)
    let address_value ← get_register register_name
    push_state
    set_register .Ip address_value
  | .Return => pop_state

/-- `Cpu::step`: fetch one opcode byte, decode it with `TryFrom`, run it. -/
def step : M Unit := do
  let instruction_as_byte ← fetch
  match instructionTryFrom instruction_as_byte with
  | .error e => mThrow e
  | .ok instruction => execute instruction

/-- `Cpu::new` with `create_memory(256*256)`: zeroed memory and
registers, then `Sp` (index 10) and `Fp` (index 11) set to
`memory.len() - 1 - 1 = 65534`. -/
def cpuNew : Cpu :=
  { memory := []
    registers := [0, 0, 0, 0, 0, 0, 0, 0, 0, 0, 65534, 65534]
    stack_frame_size := 0 }

/-- The write log of a list of byte values placed at consecutive
addresses starting at `base` (the test harness's `write_instruction!`
pattern). -/
def storeBytes (base : Nat) : List Nat → List (Nat × Nat)
  | [] => []
  | b :: bs => (base, b) :: storeBytes (base + 1) bs

/-- Run a list of already-decoded instructions in sequence with
`Cpu::execute` (the order in which the machine's control flow reaches
them); operand fetching still goes through `Ip` and memory. -/
def execList : List Instruction → M Unit
  | [] => pure ()
  | i :: is => do
    execute i
    execList is

/-- The state carried by a result, in both the ok and the error case. -/
def Res.stateOf : Res α → Cpu
  | .ok _ s => s
  | .err _ s => s

/-- The error carried by a result, if any. -/
def Res.errOf : Res α → Option CpuError
  | .ok _ _ => none
  | .err e _ => some e

/-- The returned value of a result, if any. -/
def Res.valOf : Res α → Option α
  | .ok a _ => some a
  | .err _ _ => none

/-- Index of each register name in `register_names` (the values stored
in the source's `register_map`). -/
def regIdx : RegisterName → Nat
  | .Ip => 0
  | .Acc => 1
  | .R1 => 2
  | .R2 => 3
  | .R3 => 4
  | .R4 => 5
  | .R5 => 6
  | .R6 => 7
  | .R7 => 8
  | .R8 => 9
  | .Sp => 10
  | .Fp => 11

/-! ### Scenario states

The `c3S1`..`c3S13` and `c4S1`..`c4S3` machine states below are the
intermediate states of the two concrete runs used by the claims; each is
spelled out literally so that every individual instruction's effect can
be checked by evaluation. -/

/-- Push of one 16-bit value followed by a pop, on a fresh machine. -/
def c2Run : Res Nat := (do push 0x1234; pop) cpuNew

/-- Memory image of the call/return scenario from the spec (operand
stream of the caller at address 0, of the subroutine at 0x3000; the
instruction tags are supplied to `execList` in the order control flow
reaches them). -/
def c3Mem : List (Nat × Nat) :=
  storeBytes 0 [0x33, 0x33, 0x22, 0x22, 0x11, 0x11, 0x12, 0x34, 2, 0x56, 0x78, 5, 0, 0, 0x30, 0x00] ++
  storeBytes 0x3000 [0x01, 0x02, 0x03, 0x04, 0x05, 0x06, 0x07, 0x08, 2, 0x09, 0x0A, 9]

def c3State : Cpu := { cpuNew with memory := c3Mem }

/-- Caller: push 0x3333, 0x2222, 0x1111; R1 := 0x1234; R4 := 0x5678;
push 0 (argument count); call 0x3000.  Subroutine: push 0x0102, 0x0304,
0x0506; R1 := 0x0708; R8 := 0x090A; return. -/
def c3Program : List Instruction :=
  [.PushLiteral, .PushLiteral, .PushLiteral, .MoveLiteralToRegister, .MoveLiteralToRegister,
   .PushLiteral, .CallLiteral, .PushLiteral, .PushLiteral, .PushLiteral,
   .MoveLiteralToRegister, .MoveLiteralToRegister, .Return]

def c3Run : Res Unit := execList c3Program c3State

def c3S1 : Cpu :=
  { memory := [(65535, 51), (65534, 51), (0, 51), (1, 51), (2, 34), (3, 34), (4, 17), (5, 17), (6, 18), (7, 52), (8, 2), (9, 86), (10, 120), (11, 5), (12, 0), (13, 0), (14, 48), (15, 0), (12288, 1), (12289, 2), (12290, 3), (12291, 4), (12292, 5), (12293, 6), (12294, 7), (12295, 8), (12296, 2), (12297, 9), (12298, 10), (12299, 9)],
    registers := [2, 0, 0, 0, 0, 0, 0, 0, 0, 0, 65532, 65534],
    stack_frame_size := 2 }

def c3S2 : Cpu :=
  { memory := [(65533, 34), (65532, 34), (65535, 51), (65534, 51), (0, 51), (1, 51), (2, 34), (3, 34), (4, 17), (5, 17), (6, 18), (7, 52), (8, 2), (9, 86), (10, 120), (11, 5), (12, 0), (13, 0), (14, 48), (15, 0), (12288, 1), (12289, 2), (12290, 3), (12291, 4), (12292, 5), (12293, 6), (12294, 7), (12295, 8), (12296, 2), (12297, 9), (12298, 10), (12299, 9)],
    registers := [4, 0, 0, 0, 0, 0, 0, 0, 0, 0, 65530, 65534],
    stack_frame_size := 4 }

def c3S3 : Cpu :=
  { memory := [(65531, 17), (65530, 17), (65533, 34), (65532, 34), (65535, 51), (65534, 51), (0, 51), (1, 51), (2, 34), (3, 34), (4, 17), (5, 17), (6, 18), (7, 52), (8, 2), (9, 86), (10, 120), (11, 5), (12, 0), (13, 0), (14, 48), (15, 0), (12288, 1), (12289, 2), (12290, 3), (12291, 4), (12292, 5), (12293, 6), (12294, 7), (12295, 8), (12296, 2), (12297, 9), (12298, 10), (12299, 9)],
    registers := [6, 0, 0, 0, 0, 0, 0, 0, 0, 0, 65528, 65534],
    stack_frame_size := 6 }

def c3S4 : Cpu :=
  { memory := [(65531, 17), (65530, 17), (65533, 34), (65532, 34), (65535, 51), (65534, 51), (0, 51), (1, 51), (2, 34), (3, 34), (4, 17), (5, 17), (6, 18), (7, 52), (8, 2), (9, 86), (10, 120), (11, 5), (12, 0), (13, 0), (14, 48), (15, 0), (12288, 1), (12289, 2), (12290, 3), (12291, 4), (12292, 5), (12293, 6), (12294, 7), (12295, 8), (12296, 2), (12297, 9), (12298, 10), (12299, 9)],
    registers := [9, 0, 4660, 0, 0, 0, 0, 0, 0, 0, 65528, 65534],
    stack_frame_size := 6 }

def c3S5 : Cpu :=
  { memory := [(65531, 17), (65530, 17), (65533, 34), (65532, 34), (65535, 51), (65534, 51), (0, 51), (1, 51), (2, 34), (3, 34), (4, 17), (5, 17), (6, 18), (7, 52), (8, 2), (9, 86), (10, 120), (11, 5), (12, 0), (13, 0), (14, 48), (15, 0), (12288, 1), (12289, 2), (12290, 3), (12291, 4), (12292, 5), (12293, 6), (12294, 7), (12295, 8), (12296, 2), (12297, 9), (12298, 10), (12299, 9)],
    registers := [12, 0, 4660, 0, 0, 22136, 0, 0, 0, 0, 65528, 65534],
    stack_frame_size := 6 }

def c3S6 : Cpu :=
  { memory := [(65529, 0), (65528, 0), (65531, 17), (65530, 17), (65533, 34), (65532, 34), (65535, 51), (65534, 51), (0, 51), (1, 51), (2, 34), (3, 34), (4, 17), (5, 17), (6, 18), (7, 52), (8, 2), (9, 86), (10, 120), (11, 5), (12, 0), (13, 0), (14, 48), (15, 0), (12288, 1), (12289, 2), (12290, 3), (12291, 4), (12292, 5), (12293, 6), (12294, 7), (12295, 8), (12296, 2), (12297, 9), (12298, 10), (12299, 9)],
    registers := [14, 0, 4660, 0, 0, 22136, 0, 0, 0, 0, 65526, 65534],
    stack_frame_size := 8 }

def c3S7 : Cpu :=
  { memory := [(65509, 0), (65508, 28), (65511, 0), (65510, 16), (65513, 0), (65512, 0), (65515, 0), (65514, 0), (65517, 0), (65516, 0), (65519, 0), (65518, 0), (65521, 86), (65520, 120), (65523, 0), (65522, 0), (65525, 0), (65524, 0), (65527, 18), (65526, 52), (65529, 0), (65528, 0), (65531, 17), (65530, 17), (65533, 34), (65532, 34), (65535, 51), (65534, 51), (0, 51), (1, 51), (2, 34), (3, 34), (4, 17), (5, 17), (6, 18), (7, 52), (8, 2), (9, 86), (10, 120), (11, 5), (12, 0), (13, 0), (14, 48), (15, 0), (12288, 1), (12289, 2), (12290, 3), (12291, 4), (12292, 5), (12293, 6), (12294, 7), (12295, 8), (12296, 2), (12297, 9), (12298, 10), (12299, 9)],
    registers := [12288, 0, 4660, 0, 0, 22136, 0, 0, 0, 0, 65506, 65506],
    stack_frame_size := 0 }

def c3S8 : Cpu :=
  { memory := [(65507, 1), (65506, 2), (65509, 0), (65508, 28), (65511, 0), (65510, 16), (65513, 0), (65512, 0), (65515, 0), (65514, 0), (65517, 0), (65516, 0), (65519, 0), (65518, 0), (65521, 86), (65520, 120), (65523, 0), (65522, 0), (65525, 0), (65524, 0), (65527, 18), (65526, 52), (65529, 0), (65528, 0), (65531, 17), (65530, 17), (65533, 34), (65532, 34), (65535, 51), (65534, 51), (0, 51), (1, 51), (2, 34), (3, 34), (4, 17), (5, 17), (6, 18), (7, 52), (8, 2), (9, 86), (10, 120), (11, 5), (12, 0), (13, 0), (14, 48), (15, 0), (12288, 1), (12289, 2), (12290, 3), (12291, 4), (12292, 5), (12293, 6), (12294, 7), (12295, 8), (12296, 2), (12297, 9), (12298, 10), (12299, 9)],
    registers := [12290, 0, 4660, 0, 0, 22136, 0, 0, 0, 0, 65504, 65506],
    stack_frame_size := 2 }

def c3S9 : Cpu :=
  { memory := [(65505, 3), (65504, 4), (65507, 1), (65506, 2), (65509, 0), (65508, 28), (65511, 0), (65510, 16), (65513, 0), (65512, 0), (65515, 0), (65514, 0), (65517, 0), (65516, 0), (65519, 0), (65518, 0), (65521, 86), (65520, 120), (65523, 0), (65522, 0), (65525, 0), (65524, 0), (65527, 18), (65526, 52), (65529, 0), (65528, 0), (65531, 17), (65530, 17), (65533, 34), (65532, 34), (65535, 51), (65534, 51), (0, 51), (1, 51), (2, 34), (3, 34), (4, 17), (5, 17), (6, 18), (7, 52), (8, 2), (9, 86), (10, 120), (11, 5), (12, 0), (13, 0), (14, 48), (15, 0), (12288, 1), (12289, 2), (12290, 3), (12291, 4), (12292, 5), (12293, 6), (12294, 7), (12295, 8), (12296, 2), (12297, 9), (12298, 10), (12299, 9)],
    registers := [12292, 0, 4660, 0, 0, 22136, 0, 0, 0, 0, 65502, 65506],
    stack_frame_size := 4 }

def c3S10 : Cpu :=
  { memory := [(65503, 5), (65502, 6), (65505, 3), (65504, 4), (65507, 1), (65506, 2), (65509, 0), (65508, 28), (65511, 0), (65510, 16), (65513, 0), (65512, 0), (65515, 0), (65514, 0), (65517, 0), (65516, 0), (65519, 0), (65518, 0), (65521, 86), (65520, 120), (65523, 0), (65522, 0), (65525, 0), (65524, 0), (65527, 18), (65526, 52), (65529, 0), (65528, 0), (65531, 17), (65530, 17), (65533, 34), (65532, 34), (65535, 51), (65534, 51), (0, 51), (1, 51), (2, 34), (3, 34), (4, 17), (5, 17), (6, 18), (7, 52), (8, 2), (9, 86), (10, 120), (11, 5), (12, 0), (13, 0), (14, 48), (15, 0), (12288, 1), (12289, 2), (12290, 3), (12291, 4), (12292, 5), (12293, 6), (12294, 7), (12295, 8), (12296, 2), (12297, 9), (12298, 10), (12299, 9)],
    registers := [12294, 0, 4660, 0, 0, 22136, 0, 0, 0, 0, 65500, 65506],
    stack_frame_size := 6 }

def c3S11 : Cpu :=
  { memory := [(65503, 5), (65502, 6), (65505, 3), (65504, 4), (65507, 1), (65506, 2), (65509, 0), (65508, 28), (65511, 0), (65510, 16), (65513, 0), (65512, 0), (65515, 0), (65514, 0), (65517, 0), (65516, 0), (65519, 0), (65518, 0), (65521, 86), (65520, 120), (65523, 0), (65522, 0), (65525, 0), (65524, 0), (65527, 18), (65526, 52), (65529, 0), (65528, 0), (65531, 17), (65530, 17), (65533, 34), (65532, 34), (65535, 51), (65534, 51), (0, 51), (1, 51), (2, 34), (3, 34), (4, 17), (5, 17), (6, 18), (7, 52), (8, 2), (9, 86), (10, 120), (11, 5), (12, 0), (13, 0), (14, 48), (15, 0), (12288, 1), (12289, 2), (12290, 3), (12291, 4), (12292, 5), (12293, 6), (12294, 7), (12295, 8), (12296, 2), (12297, 9), (12298, 10), (12299, 9)],
    registers := [12297, 0, 1800, 0, 0, 22136, 0, 0, 0, 0, 65500, 65506],
    stack_frame_size := 6 }

def c3S12 : Cpu :=
  { memory := [(65503, 5), (65502, 6), (65505, 3), (65504, 4), (65507, 1), (65506, 2), (65509, 0), (65508, 28), (65511, 0), (65510, 16), (65513, 0), (65512, 0), (65515, 0), (65514, 0), (65517, 0), (65516, 0), (65519, 0), (65518, 0), (65521, 86), (65520, 120), (65523, 0), (65522, 0), (65525, 0), (65524, 0), (65527, 18), (65526, 52), (65529, 0), (65528, 0), (65531, 17), (65530, 17), (65533, 34), (65532, 34), (65535, 51), (65534, 51), (0, 51), (1, 51), (2, 34), (3, 34), (4, 17), (5, 17), (6, 18), (7, 52), (8, 2), (9, 86), (10, 120), (11, 5), (12, 0), (13, 0), (14, 48), (15, 0), (12288, 1), (12289, 2), (12290, 3), (12291, 4), (12292, 5), (12293, 6), (12294, 7), (12295, 8), (12296, 2), (12297, 9), (12298, 10), (12299, 9)],
    registers := [12300, 0, 1800, 0, 0, 22136, 0, 0, 0, 2314, 65500, 65506],
    stack_frame_size := 6 }

def c3S13 : Cpu :=
  { memory := [(65503, 5), (65502, 6), (65505, 3), (65504, 4), (65507, 1), (65506, 2), (65509, 0), (65508, 28), (65511, 0), (65510, 16), (65513, 0), (65512, 0), (65515, 0), (65514, 0), (65517, 0), (65516, 0), (65519, 0), (65518, 0), (65521, 86), (65520, 120), (65523, 0), (65522, 0), (65525, 0), (65524, 0), (65527, 18), (65526, 52), (65529, 0), (65528, 0), (65531, 17), (65530, 17), (65533, 34), (65532, 34), (65535, 51), (65534, 51), (0, 51), (1, 51), (2, 34), (3, 34), (4, 17), (5, 17), (6, 18), (7, 52), (8, 2), (9, 86), (10, 120), (11, 5), (12, 0), (13, 0), (14, 48), (15, 0), (12288, 1), (12289, 2), (12290, 3), (12291, 4), (12292, 5), (12293, 6), (12294, 7), (12295, 8), (12296, 2), (12297, 9), (12298, 10), (12299, 9)],
    registers := [4096, 0, 13330, 0, 0, 30806, 0, 0, 0, 0, 65528, 65534],
    stack_frame_size := 7148 }


/-- One dummy `push 0` (the argument-count slot), then one
`Cpu::push_state` / `Cpu::pop_state` pair: the state save/restore of a
call with a caller-pushed argument count of 0. -/
def c4Run : Res Unit := (do push 0; push_state; pop_state) cpuNew

def c4S1 : Cpu :=
  { memory := [(65535, 0), (65534, 0)],
    registers := [0, 0, 0, 0, 0, 0, 0, 0, 0, 0, 65532, 65534],
    stack_frame_size := 2 }

def c4S2 : Cpu :=
  { memory := [(65515, 0), (65514, 22), (65517, 0), (65516, 0), (65519, 0), (65518, 0), (65521, 0), (65520, 0), (65523, 0), (65522, 0), (65525, 0), (65524, 0), (65527, 0), (65526, 0), (65529, 0), (65528, 0), (65531, 0), (65530, 0), (65533, 0), (65532, 0), (65535, 0), (65534, 0)],
    registers := [0, 0, 0, 0, 0, 0, 0, 0, 0, 0, 65512, 65512],
    stack_frame_size := 0 }

def c4S3 : Cpu :=
  { memory := [(65515, 0), (65514, 22), (65517, 0), (65516, 0), (65519, 0), (65518, 0), (65521, 0), (65520, 0), (65523, 0), (65522, 0), (65525, 0), (65524, 0), (65527, 0), (65526, 0), (65529, 0), (65528, 0), (65531, 0), (65530, 0), (65533, 0), (65532, 0), (65535, 0), (65534, 0)],
    registers := [0, 0, 0, 0, 0, 0, 0, 0, 0, 0, 65534, 65534],
    stack_frame_size := 5612 }


/-- State after `write16(0x100, 0x1234)` on a fresh machine. -/
def c5State : Cpu := (set_memory16 0x100 0x1234 cpuNew).stateOf

/-- A fresh machine whose `Sp` has reached zero (a full stack). -/
def spZeroState : Cpu :=
  { cpuNew with registers := [0, 0, 0, 0, 0, 0, 0, 0, 0, 0, 0, 65534] }

/-- Fresh machine with the single unmapped opcode byte 0xFF at address 0. -/
def c7State : Cpu := { cpuNew with memory := [(0, 0xFF)] }

/-- Machine prepared for `AddRegisterToRegister`: operand bytes name the
registers at indices 2 (`R1`) and 3 (`R2`), which hold `v1` and `v2`. -/
def c8State (v1 v2 : Nat) : Cpu :=
  { cpuNew with
    memory := storeBytes 0 [2, 3]
    registers := [0, 0, v1, v2, 0, 0, 0, 0, 0, 0, 65534, 65534] }

/-- Machine prepared for the store/load round trip: program image
`[0x12, r, aHi, aLo, 0x13, aHi, aLo, r]` at address 0 (store register
`r` at address `a`, then load address `a` into register `r`), with
register `r` holding `v` and the other registers at their `Cpu::new`
values. -/
def c10State (a r v : Nat) : Cpu :=
  { memory := [(0, 0x12), (1, r), (2, a / 256), (3, a % 256),
               (4, 0x13), (5, a / 256), (6, a % 256), (7, r)]
    registers := [if r = 0 then v else 0, if r = 1 then v else 0, if r = 2 then v else 0,
                  if r = 3 then v else 0, if r = 4 then v else 0, if r = 5 then v else 0,
                  if r = 6 then v else 0, if r = 7 then v else 0, if r = 8 then v else 0,
                  if r = 9 then v else 0, if r = 10 then v else 65534, if r = 11 then v else 65534]
    stack_frame_size := 0 }

/-! ### Unfolding lemmas for the state monad and the register map -/

theorem registerMapGet_eq (name : RegisterName) :
    registerMapGet name = some (regIdx name) := by
  cases name <;> rfl

theorem mBind_apply (m : M α) (f : α → M β) (s : Cpu) :
    (m >>= f) s =
      match m s with
      | .ok a s' => f a s'
      | .err e s' => .err e s' := rfl

theorem mPure_apply (a : α) (s : Cpu) : (pure a : M α) s = .ok a s := rfl

/-- Sequencing through a successful first operation. -/
theorem bind_ok (m : M α) (f : α → M β) (s : Cpu) (a : α) (s' : Cpu)
    (h : m s = .ok a s') : (m >>= f) s = f a s' := by
  show M.bind m f s = f a s'
  unfold M.bind
  rw [h]

theorem modify_bind (f : Cpu → Cpu) (k : Unit → M β) (s : Cpu) :
    (modifyCpu f >>= k) s = k () (f s) := rfl

/-- `get_register` succeeds and is read-only whenever the register
vector has an entry at the name's index. -/
theorem get_register_spec (name : RegisterName) (s : Cpu) (v : Nat)
    (h : s.registers.get? (regIdx name) = some v) :
    get_register name s = .ok v s := by
  simp only [get_register, registerMapGet_eq, h]

/-- `set_register` always succeeds and updates exactly the name's index. -/
theorem set_register_spec (name : RegisterName) (value : Nat) (s : Cpu) :
    set_register name value s =
      .ok () { s with registers := s.registers.set (regIdx name) value } := by
  simp only [set_register, registerMapGet_eq]

/-- `memGet` succeeds on an in-bounds address and is read-only. -/
theorem memGet_spec (a : Nat) (s : Cpu) (h : a < 65536) :
    memGet a s = .ok (memRead s.memory a) s := by
  simp only [memGet, h, if_true]

/-- Effect of one `pop` when `Sp` holds `sp` and no address wraps: `Sp`
moves up to `sp + 2` and the two bytes there are read back big-endian. -/
theorem pop_spec (s : Cpu) (sp : Nat)
    (hsp : s.registers.get? 10 = some sp) (hb : sp + 2 + 1 < 65536) :
    pop s = .ok (memRead s.memory (sp + 2) * 256 + memRead s.memory (sp + 2 + 1))
      { s with registers := s.registers.set 10 (sp + 2),
               stack_frame_size := (s.stack_frame_size + 65534) % 65536 } := by
  have hm : (sp + 2) % 65536 = sp + 2 := Nat.mod_eq_of_lt (by omega)
  have h1 : sp + 2 < 65536 := by omega
  simp only [pop, get_register, set_register, modifyCpu, getCpu, liftE,
    get_memory_16, registerMapGet_eq, regIdx, mBind_apply, hsp, hm, h1, hb,
    if_true]
theorem pop_state_spec (mem : List (Nat × Nat))
    (r0 r1 r2 r3 r4 r5 r6 r7 r8 r9 r10 r11 sfs : Nat)
    (hfp : r11 ≤ 65512)
    (hargs : memRead mem (r11 + 22) * 256 + memRead mem (r11 + 23) = 0) :
    pop_state { memory := mem,
                registers := [r0, r1, r2, r3, r4, r5, r6, r7, r8, r9, r10, r11],
                stack_frame_size := sfs } =
      .ok () { memory := mem,
               registers := [
                 memRead mem (r11 + 4) * 256 + memRead mem (r11 + 5),
                 r1,
                 memRead mem (r11 + 20) * 256 + memRead mem (r11 + 21),
                 memRead mem (r11 + 18) * 256 + memRead mem (r11 + 19),
                 memRead mem (r11 + 16) * 256 + memRead mem (r11 + 17),
                 memRead mem (r11 + 14) * 256 + memRead mem (r11 + 15),
                 memRead mem (r11 + 12) * 256 + memRead mem (r11 + 13),
                 memRead mem (r11 + 10) * 256 + memRead mem (r11 + 11),
                 memRead mem (r11 + 8) * 256 + memRead mem (r11 + 9),
                 memRead mem (r11 + 6) * 256 + memRead mem (r11 + 7),
                 r11 + 22,
                 (r11 + (memRead mem (r11 + 2) * 256 + memRead mem (r11 + 3)) >>> 8) % 65536],
               stack_frame_size := ((((((((((memRead mem (r11 + 2) * 256 + memRead mem (r11 + 3) + 65534) % 65536 + 65534) % 65536 + 65534) % 65536 + 65534) % 65536 + 65534) % 65536 + 65534) % 65536 + 65534) % 65536 + 65534) % 65536 + 65534) % 65536 + 65534) % 65536 } := by
  rw [pop_state]
  refine Eq.trans (bind_ok _ _ _ _ _ (get_register_spec .Fp _ _ rfl)) ?_
  refine Eq.trans (bind_ok _ _ _ _ _ (set_register_spec .Sp _ _)) ?_
  simp only [regIdx, List.set]
  refine Eq.trans (bind_ok _ _ _ _ _ (pop_spec _ r11 rfl (by omega))) ?_
  simp only [List.set, (by omega : r11 + 2 + 1 = r11 + 3)]
  refine Eq.trans (modify_bind _ _ _) ?_
  refine Eq.trans (bind_ok _ _ _ _ _ (pop_spec _ (r11 + 2) rfl (by omega))) ?_
  simp only [List.set, (by omega : r11 + 2 + 2 = r11 + 4), (by omega : r11 + 4 + 1 = r11 + 5)]
  refine Eq.trans (bind_ok _ _ _ _ _ (set_register_spec .Ip _ _)) ?_
  simp only [regIdx, List.set]
  refine Eq.trans (bind_ok _ _ _ _ _ (pop_spec _ (r11 + 4) rfl (by omega))) ?_
  simp only [List.set, (by omega : r11 + 4 + 2 = r11 + 6), (by omega : r11 + 6 + 1 = r11 + 7)]
  refine Eq.trans (bind_ok _ _ _ _ _ (set_register_spec .R8 _ _)) ?_
  simp only [regIdx, List.set]
  refine Eq.trans (bind_ok _ _ _ _ _ (pop_spec _ (r11 + 6) rfl (by omega))) ?_
  simp only [List.set, (by omega : r11 + 6 + 2 = r11 + 8), (by omega : r11 + 8 + 1 = r11 + 9)]
  refine Eq.trans (bind_ok _ _ _ _ _ (set_register_spec .R7 _ _)) ?_
  simp only [regIdx, List.set]
  refine Eq.trans (bind_ok _ _ _ _ _ (pop_spec _ (r11 + 8) rfl (by omega))) ?_
  simp only [List.set, (by omega : r11 + 8 + 2 = r11 + 10), (by omega : r11 + 10 + 1 = r11 + 11)]
  refine Eq.trans (bind_ok _ _ _ _ _ (set_register_spec .R6 _ _)) ?_
  simp only [regIdx, List.set]
  refine Eq.trans (bind_ok _ _ _ _ _ (pop_spec _ (r11 + 10) rfl (by omega))) ?_
  simp only [List.set, (by omega : r11 + 10 + 2 = r11 + 12), (by omega : r11 + 12 + 1 = r11 + 13)]
  refine Eq.trans (bind_ok _ _ _ _ _ (set_register_spec .R5 _ _)) ?_
  simp only [regIdx, List.set]
  refine Eq.trans (bind_ok _ _ _ _ _ (pop_spec _ (r11 + 12) rfl (by omega))) ?_
  simp only [List.set, (by omega : r11 + 12 + 2 = r11 + 14), (by omega : r11 + 14 + 1 = r11 + 15)]
  refine Eq.trans (bind_ok _ _ _ _ _ (set_register_spec .R4 _ _)) ?_
  simp only [regIdx, List.set]
  refine Eq.trans (bind_ok _ _ _ _ _ (pop_spec _ (r11 + 14) rfl (by omega))) ?_
  simp only [List.set, (by omega : r11 + 14 + 2 = r11 + 16), (by omega : r11 + 16 + 1 = r11 + 17)]
  refine Eq.trans (bind_ok _ _ _ _ _ (set_register_spec .R3 _ _)) ?_
  simp only [regIdx, List.set]
  refine Eq.trans (bind_ok _ _ _ _ _ (pop_spec _ (r11 + 16) rfl (by omega))) ?_
  simp only [List.set, (by omega : r11 + 16 + 2 = r11 + 18), (by omega : r11 + 18 + 1 = r11 + 19)]
  refine Eq.trans (bind_ok _ _ _ _ _ (set_register_spec .R2 _ _)) ?_
  simp only [regIdx, List.set]
  refine Eq.trans (bind_ok _ _ _ _ _ (pop_spec _ (r11 + 18) rfl (by omega))) ?_
  simp only [List.set, (by omega : r11 + 18 + 2 = r11 + 20), (by omega : r11 + 20 + 1 = r11 + 21)]
  refine Eq.trans (bind_ok _ _ _ _ _ (set_register_spec .R1 _ _)) ?_
  simp only [regIdx, List.set]
  refine Eq.trans (bind_ok _ _ _ _ _ (pop_spec _ (r11 + 20) rfl (by omega))) ?_
  simp only [List.set, (by omega : r11 + 20 + 2 = r11 + 22), (by omega : r11 + 22 + 1 = r11 + 23)]
  rw [hargs]
  refine Eq.trans (bind_ok _ _ _ _ _ rfl) ?_
  refine Eq.trans (set_register_spec .Fp _ _) ?_
  simp only [regIdx, List.set]

/-! ### Evaluated runs -/

theorem c3step1 : execute .PushLiteral c3State = .ok () c3S1 := by decide
theorem c3step2 : execute .PushLiteral c3S1 = .ok () c3S2 := by decide
theorem c3step3 : execute .PushLiteral c3S2 = .ok () c3S3 := by decide
theorem c3step4 : execute .MoveLiteralToRegister c3S3 = .ok () c3S4 := by decide
theorem c3step5 : execute .MoveLiteralToRegister c3S4 = .ok () c3S5 := by decide
theorem c3step6 : execute .PushLiteral c3S5 = .ok () c3S6 := by decide
theorem c3step7 : execute .CallLiteral c3S6 = .ok () c3S7 := by decide
theorem c3step8 : execute .PushLiteral c3S7 = .ok () c3S8 := by decide
theorem c3step9 : execute .PushLiteral c3S8 = .ok () c3S9 := by decide
theorem c3step10 : execute .PushLiteral c3S9 = .ok () c3S10 := by decide
theorem c3step11 : execute .MoveLiteralToRegister c3S10 = .ok () c3S11 := by decide
theorem c3step12 : execute .MoveLiteralToRegister c3S11 = .ok () c3S12 := by decide

theorem c3step13 : execute .Return c3S12 = .ok () c3S13 :=
  Eq.trans
    (pop_state_spec c3S12.memory 12300 0 1800 0 0 22136 0 0 0 2314 65500 65506 6
      (by decide) (by decide))
    (by decide)

theorem c3run_eq : c3Run = .ok () c3S13 := by
  show execList c3Program c3State = _
  simp only [c3Program, execList]
  refine Eq.trans (bind_ok _ _ _ _ _ c3step1) ?_
  refine Eq.trans (bind_ok _ _ _ _ _ c3step2) ?_
  refine Eq.trans (bind_ok _ _ _ _ _ c3step3) ?_
  refine Eq.trans (bind_ok _ _ _ _ _ c3step4) ?_
  refine Eq.trans (bind_ok _ _ _ _ _ c3step5) ?_
  refine Eq.trans (bind_ok _ _ _ _ _ c3step6) ?_
  refine Eq.trans (bind_ok _ _ _ _ _ c3step7) ?_
  refine Eq.trans (bind_ok _ _ _ _ _ c3step8) ?_
  refine Eq.trans (bind_ok _ _ _ _ _ c3step9) ?_
  refine Eq.trans (bind_ok _ _ _ _ _ c3step10) ?_
  refine Eq.trans (bind_ok _ _ _ _ _ c3step11) ?_
  refine Eq.trans (bind_ok _ _ _ _ _ c3step12) ?_
  refine Eq.trans (bind_ok _ _ _ _ _ c3step13) ?_
  rfl

theorem c4step1 : push 0 cpuNew = .ok () c4S1 := by decide
theorem c4step2 : push_state c4S1 = .ok () c4S2 := by decide

theorem c4step3 : pop_state c4S2 = .ok () c4S3 :=
  Eq.trans
    (pop_state_spec c4S2.memory 0 0 0 0 0 0 0 0 0 0 65512 65512 0
      (by decide) (by decide))
    (by decide)

theorem c4run_eq : c4Run = .ok () c4S3 := by
  show (do push 0; push_state; pop_state : M Unit) cpuNew = _
  refine Eq.trans (bind_ok _ _ _ _ _ c4step1) ?_
  refine Eq.trans (bind_ok _ _ _ _ _ c4step2) ?_
  exact c4step3

/-! ### Claim theorems -/

/-- C1: the decoder generated by `define_instruction!` maps only the six
bytes 0x10..0x15 to instruction tags; every byte the section-6 table
assigns to `PushLiteral` (0x16) through `Return` (0x1B) falls into the
catch-all arm and decodes to `InvalidInstruction`, as does 0xFF.  This
evaluates the decoder at the claim's failing inputs: the listed tags for
0x16..0x1B are not produced, although `cpu.rs` implements all twelve
instructions and `cpu_tests.rs` emits their opcodes. -/
theorem c1_decode_table_eval :
    instructionTryFrom 0x10 = .ok .MoveLiteralToRegister ∧
    instructionTryFrom 0x11 = .ok .MoveRegisterToRegister ∧
    instructionTryFrom 0x12 = .ok .MoveRegisterToMemory ∧
    instructionTryFrom 0x13 = .ok .MoveMemoryToRegister ∧
    instructionTryFrom 0x14 = .ok .AddRegisterToRegister ∧
    instructionTryFrom 0x15 = .ok .JumpNotEq ∧
    instructionTryFrom 0x16 = .error .InvalidInstruction ∧
    instructionTryFrom 0x17 = .error .InvalidInstruction ∧
    instructionTryFrom 0x18 = .error .InvalidInstruction ∧
    instructionTryFrom 0x19 = .error .InvalidInstruction ∧
    instructionTryFrom 0x1A = .error .InvalidInstruction ∧
    instructionTryFrom 0x1B = .error .InvalidInstruction ∧
    instructionTryFrom 0xFF = .error .InvalidInstruction :=
  ⟨rfl, rfl, rfl, rfl, rfl, rfl, rfl, rfl, rfl, rfl, rfl, rfl, rfl⟩

/-- C2: push of 0x1234 followed by pop on a fresh machine (Sp = 0xFFFE,
well inside bounds) succeeds and does restore `Sp` to its pre-push
value, but returns the byte-swapped value 0x3412, not 0x1234:
`set_memory16` stores the low byte at the lower address while
`get_memory_16` reads the byte at the lower address as the high byte. -/
theorem c2_push_pop_byteswaps :
    c2Run.errOf = none ∧
    c2Run.valOf = some 0x3412 ∧
    ¬ c2Run.valOf = some 0x1234 ∧
    c2Run.stateOf.registers.get? 10 = some 65534 := by
  decide

/-- C3: the spec's end-to-end call/return scenario (caller pushes
0x3333, 0x2222, 0x1111, sets R1 := 0x1234 and R4 := 0x5678, pushes an
argument count of 0, calls 0x3000; the subroutine pushes three literals,
sets R1 := 0x0708 and R8 := 0x090A, and returns).  After `Return` the
run has produced no error and `Fp` is back at its pre-call 0xFFFE, but
`R1` holds 0x3412 and `R4` holds 0x7856 — the byte-swaps of their
pre-call values — because `push_state` stores registers little-endian
while `pop_state` reads them back big-endian; `Sp` ends at 0xFFF8, not
at its pre-call 0xFFF6 (the argument-count slot has been consumed). -/
theorem c3_return_restores_byteswapped_registers :
    c3Run.errOf = none ∧
    c3Run.stateOf.registers.get? 2 = some 0x3412 ∧
    ¬ c3Run.stateOf.registers.get? 2 = some 0x1234 ∧
    c3Run.stateOf.registers.get? 5 = some 0x7856 ∧
    ¬ c3Run.stateOf.registers.get? 5 = some 0x5678 ∧
    c3Run.stateOf.registers.get? 9 = some 0 ∧
    c3Run.stateOf.registers.get? 10 = some 0xFFF8 ∧
    c3Run.stateOf.registers.get? 11 = some 0xFFFE := by
  rw [c3run_eq]
  decide

/-- C4: in a `push 0` / `push_state` / `pop_state` sequence on a fresh
machine (a zero-argument call frame), the frame-size word popped at the
start of the restore is 5632 = 0x1600 — the byte-swap of the 22 = 0x0016
that `push_state` pushed — and `Fp` is advanced from the frame base
65512 by `5632 >>> 8 = 22`, the source's compensating right-shift, not
by the popped value 5632 itself. -/
theorem c4_fp_advanced_by_shifted_frame_size :
    c4S2.registers.get? 11 = some 65512 ∧
    c4Run.errOf = none ∧
    (get_memory_16 65514 c4Run.stateOf).toOption = some 5632 ∧
    c4Run.stateOf.registers.get? 11 = some ((65512 + (5632 >>> 8)) % 65536) ∧
    ¬ c4Run.stateOf.registers.get? 11 = some ((65512 + 5632) % 65536) := by
  rw [c4run_eq]
  decide

/-- C5: `write16(0x100, 0x1234)` followed by `read16(0x100)` on a fresh
machine returns the byte-swapped 0x3412 rather than 0x1234, and the
write is little-endian: the LEAST-significant byte 0x34 lands at the
lower address 0x100 and the most-significant byte 0x12 at 0x101,
contradicting both the round-trip and the big-endian-write claim. -/
theorem c5_write16_read16_not_roundtrip :
    (get_memory_16 0x100 c5State).toOption = some 0x3412 ∧
    ¬ (get_memory_16 0x100 c5State).toOption = some 0x1234 ∧
    memRead c5State.memory 0x100 = 0x34 ∧
    memRead c5State.memory 0x101 = 0x12 := by
  decide

/-- C6: a pop on a fresh machine (nothing pushed, `Sp` at its initial
top-of-memory value 0xFFFE) does NOT fail: `Sp + 2` wraps to 0, `Sp` is
set to 0, and the bytes at addresses 0 and 1 are read back as the
"popped" value 0.  A push with `Sp` = 0 does not fail either: `Sp - 2`
wraps to 0xFFFE.  (The source `CpuError` enum has no `StackUnderflow`
or `StackOverflow` variant at all.) -/
theorem c6_stack_limits_wrap_silently :
    (pop cpuNew).errOf = none ∧
    (pop cpuNew).valOf = some 0 ∧
    (pop cpuNew).stateOf.registers.get? 10 = some 0 ∧
    (push 7 spZeroState).errOf = none ∧
    (push 7 spZeroState).stateOf.registers.get? 10 = some 65534 := by
  decide

/-- C7 counterexample: with the unmapped opcode byte 0xFF at address 0,
`step` does fail with `InvalidInstruction`, but the machine state is NOT
unchanged: `Ip` has moved from 0 to 1, because `fetch` writes `Ip + 1`
back before the decode failure.  This refutes the claim that the entire
state, including `Ip`, is unchanged after the failed step. -/
theorem c7_failed_step_moves_ip :
    (step c7State).errOf = some .InvalidInstruction ∧
    c7State.registers.get? 0 = some 0 ∧
    (step c7State).stateOf.registers.get? 0 = some 1 ∧
    ¬ (step c7State).stateOf.registers.get? 0 = c7State.registers.get? 0 := by
  decide

/-! ### Symbolic operation specs used by the universally quantified claims -/

/-- `fetch` on a state whose `Ip` holds an in-bounds address. -/
theorem fetch_spec (s : Cpu) (ip : Nat)
    (hip : s.registers.get? 0 = some ip) (hb : ip < 65536) :
    fetch s = .ok (memRead s.memory ip)
      { s with registers := s.registers.set 0 ((ip + 1) % 65536) } := by
  simp only [fetch, get_register, set_register, memGet, registerMapGet_eq,
    regIdx, mBind_apply, hip, hb, if_true]

/-- `fetch16` on a state whose `Ip` holds an address with `Ip + 1` in
bounds. -/
theorem fetch16_spec (s : Cpu) (ip : Nat)
    (hip : s.registers.get? 0 = some ip) (hb : ip + 1 < 65536) :
    fetch16 s = .ok (memRead s.memory ip * 256 + memRead s.memory (ip + 1))
      { s with registers := s.registers.set 0 ((ip + 2) % 65536) } := by
  have h1 : ip < 65536 := by omega
  simp only [fetch16, get_register, set_register, memGet, registerMapGet_eq,
    regIdx, mBind_apply, mPure_apply, hip, hb, h1, if_true]

/-- `fetch_register_index` returns the fetched operand byte reduced
modulo the register count 12. -/
theorem fetch_register_index_spec (s : Cpu) (ip : Nat)
    (hip : s.registers.get? 0 = some ip) (hb : ip < 65536) :
    fetch_register_index s = .ok (memRead s.memory ip % 12)
      { s with registers := s.registers.set 0 ((ip + 1) % 65536) } := by
  simp only [fetch_register_index]
  refine Eq.trans (bind_ok _ _ _ _ _ (fetch_spec s ip hip hb)) ?_
  simp only [mPure_apply, register_names, List.length]

/-- C7 (amended): a `step` that fetches an unmapped opcode byte fails
with `InvalidInstruction` and leaves memory, the frame counter and every
register except `Ip` unchanged; `Ip` alone has been advanced by 1 by
the opcode fetch that precedes decoding. -/
theorem c7_invalid_opcode_only_advances_ip : ∀ (s : Cpu) (ip : Nat),
    s.registers.get? 0 = some ip → ip < 65536 → memRead s.memory ip = 0xFF →
    (step s).errOf = some .InvalidInstruction ∧
    (step s).stateOf.memory = s.memory ∧
    (step s).stateOf.registers = s.registers.set 0 ((ip + 1) % 65536) ∧
    (step s).stateOf.stack_frame_size = s.stack_frame_size := by
  intro s ip hip hb hbyte
  have hstep : step s = .err .InvalidInstruction
      { s with registers := s.registers.set 0 ((ip + 1) % 65536) } := by
    simp only [step]
    refine Eq.trans (bind_ok _ _ _ _ _ (fetch_spec s ip hip hb)) ?_
    rw [hbyte]
    rfl
  rw [hstep]
  exact ⟨rfl, rfl, rfl, rfl⟩

/-- Witness for the amended C7 theorem at the concrete 0xFF state. -/
theorem c7_invalid_opcode_only_advances_ip_witness :
    (step c7State).errOf = some .InvalidInstruction ∧
    (step c7State).stateOf.registers = c7State.registers.set 0 ((0 + 1) % 65536) := by
  have h := c7_invalid_opcode_only_advances_ip c7State 0 (by decide) (by decide) (by decide)
  exact ⟨h.1, h.2.2.1⟩

/-- C8: `AddRegisterToRegister` reads the two named registers, stores
their sum reduced modulo 65536 into `Acc` (index 1), and succeeds; in
particular R1 = 0x0001 and R2 = 0xFFFF leave `Acc` = 0x0000. -/
theorem c8_add_stores_sum_mod_65536_in_acc :
    (∀ v1 v2 : Nat,
      (execute .AddRegisterToRegister (c8State v1 v2)).errOf = none ∧
      (execute .AddRegisterToRegister (c8State v1 v2)).stateOf.registers.get? 1 =
        some ((v1 + v2) % 65536)) ∧
    (execute .AddRegisterToRegister (c8State 0x0001 0xFFFF)).errOf = none ∧
    (execute .AddRegisterToRegister (c8State 0x0001 0xFFFF)).stateOf.registers.get? 1 =
      some 0 :=
  ⟨fun _ _ => ⟨rfl, rfl⟩, rfl, rfl⟩

/-- C9: register lookup is total.  With the full 12-entry register
vector, `get_register` and `set_register` succeed for every name;
`fetch_register_index` returns the fetched byte modulo 12; and every
reduced index resolves to a register name, so the
`RegisterOutOfBounds` branch after the modulo is unreachable. -/
theorem c9_register_lookup_total :
    (∀ s : Cpu, s.registers.length = 12 → ∀ (name : RegisterName) (v : Nat),
      (get_register name s).errOf = none ∧ (set_register name v s).errOf = none) ∧
    (∀ (s : Cpu) (ip : Nat), s.registers.get? 0 = some ip → ip < 65536 →
      (fetch_register_index s).valOf = some (memRead s.memory ip % 12)) ∧
    (∀ b : Nat, b % 12 < 12 ∧ ∃ name, get_register_name (b % 12) = .ok name) := by
  refine ⟨?_, ?_, ?_⟩
  · intro s hlen name v
    have hidx : regIdx name < 12 := by cases name <;> decide
    cases hg : s.registers.get? (regIdx name) with
    | none =>
      exfalso
      have := List.get?_eq_none.mp hg
      omega
    | some w =>
      constructor
      · simp only [get_register, registerMapGet_eq, hg, Res.errOf]
      · simp only [set_register, registerMapGet_eq, Res.errOf]
  · intro s ip hip hb
    rw [fetch_register_index_spec s ip hip hb]
    rfl
  · intro b
    have h12 : b % 12 < 12 := Nat.mod_lt _ (by norm_num)
    refine ⟨h12, ?_⟩
    obtain ⟨i, hi⟩ : ∃ i, b % 12 = i := ⟨_, rfl⟩
    rw [hi] at h12 ⊢
    interval_cases i <;> exact ⟨_, rfl⟩

/-- Witness for C9 on a fresh machine: `R3` reads fine, and fetching a
register index returns the opcode byte at `Ip` = 0 modulo 12. -/
theorem c9_register_lookup_total_witness :
    (get_register .R3 cpuNew).errOf = none ∧
    (fetch_register_index cpuNew).valOf = some (memRead cpuNew.memory 0 % 12) :=
  ⟨(c9_register_lookup_total.1 cpuNew (by decide) .R3 0).1,
   c9_register_lookup_total.2.1 cpuNew 0 (by decide) (by decide)⟩
/-- C10: storing register `r` to an in-bounds address `a` with
`MoveRegisterToMemory` (opcode 0x12) and loading `a` back into `r` with
`MoveMemoryToRegister` (opcode 0x13) restores `r`'s original 16-bit
value, for every data register (`r` other than `Ip`, whose value the
sequencing itself rewrites) and every address not overlapping the
8-byte program image: both arms place the least-significant byte at the
lower address, even though `fetch16` and `get_memory_16` read the byte
at the lower address as most significant. -/
theorem c10_store_load_roundtrip :
    ∀ (a r v : Nat), 8 ≤ a → a + 1 < 65536 → r < 12 → r ≠ 0 → v < 65536 →
    ((do step; step : M Unit) (c10State a r v)).errOf = none ∧
    ((do step; step : M Unit) (c10State a r v)).stateOf.registers.get? r = some v := by
  intro a r v h8 ha hr hr0 hv
  interval_cases r
  · exact absurd rfl hr0
  · rw [show c10State a 1 v =
      { memory := [(0, 0x12), (1, 1), (2, a / 256), (3, a % 256), (4, 0x13), (5, a / 256), (6, a % 256), (7, 1)],
        registers := [0, v, 0, 0, 0, 0, 0, 0, 0, 0, 65534, 65534],
        stack_frame_size := 0 } from rfl]
    have haddr : a / 256 * 256 + a % 256 = a := by omega
    have hn4 : ¬(a + 1 = 4) := by omega
    have hn5 : ¬(a + 1 = 5) := by omega
    have hn6 : ¬(a + 1 = 6) := by omega
    have hn7 : ¬(a + 1 = 7) := by omega
    have hm4 : ¬(a = 4) := by omega
    have hm5 : ¬(a = 5) := by omega
    have hm6 : ¬(a = 6) := by omega
    have hm7 : ¬(a = 7) := by omega
    have hnn : ¬(a + 1 = a) := by omega
    have hcomb : v / 256 % 256 * 256 + v % 256 = v := by omega
    have h1 : step { memory := [(0, 0x12), (1, 1), (2, a / 256), (3, a % 256), (4, 0x13), (5, a / 256), (6, a % 256), (7, 1)],
                     registers := ([0, v, 0, 0, 0, 0, 0, 0, 0, 0, 65534, 65534] : List Nat),
                     stack_frame_size := 0 } =
        .ok () { memory := [(a + 1, v / 256 % 256), (a, v % 256), (0, 0x12), (1, 1), (2, a / 256), (3, a % 256), (4, 0x13), (5, a / 256), (6, a % 256), (7, 1)],
                 registers := ([4, v, 0, 0, 0, 0, 0, 0, 0, 0, 65534, 65534] : List Nat),
                 stack_frame_size := 0 } := by
      simp only [step]
      refine Eq.trans (bind_ok _ _ _ _ _ (fetch_spec _ 0 rfl (by norm_num))) ?_
      norm_num [memRead, List.set]
      norm_num [instructionTryFrom, execute]
      refine Eq.trans (bind_ok _ _ _ _ _ (fetch_register_index_spec _ 1 rfl (by norm_num))) ?_
      norm_num [memRead, List.set, register_names, List.get?]
      refine Eq.trans (bind_ok _ _ _ _ _ (get_register_spec .Acc _ _ rfl)) ?_
      refine Eq.trans (bind_ok _ _ _ _ _ (fetch16_spec _ 2 rfl (by norm_num))) ?_
      norm_num [memRead, List.set]
      rw [haddr]
      rfl
    have h2 : step { memory := [(a + 1, v / 256 % 256), (a, v % 256), (0, 0x12), (1, 1), (2, a / 256), (3, a % 256), (4, 0x13), (5, a / 256), (6, a % 256), (7, 1)],
                     registers := ([4, v, 0, 0, 0, 0, 0, 0, 0, 0, 65534, 65534] : List Nat),
                     stack_frame_size := 0 } =
        .ok () { memory := [(a + 1, v / 256 % 256), (a, v % 256), (0, 0x12), (1, 1), (2, a / 256), (3, a % 256), (4, 0x13), (5, a / 256), (6, a % 256), (7, 1)],
                 registers := ([8, v, 0, 0, 0, 0, 0, 0, 0, 0, 65534, 65534] : List Nat),
                 stack_frame_size := 0 } := by
      simp only [step]
      refine Eq.trans (bind_ok _ _ _ _ _ (fetch_spec _ 4 rfl (by norm_num))) ?_
      norm_num [memRead, List.set, hn4, hm4]
      norm_num [instructionTryFrom, execute]
      refine Eq.trans (bind_ok _ _ _ _ _ (fetch16_spec _ 5 rfl (by norm_num))) ?_
      norm_num [memRead, List.set, hn5, hm5, hn6, hm6]
      rw [haddr]
      refine Eq.trans (bind_ok _ _ _ _ _ (fetch_register_index_spec _ 7 rfl (by norm_num))) ?_
      norm_num [memRead, List.set, hn7, hm7, register_names, List.get?]
      refine Eq.trans (bind_ok _ _ _ _ _ (show getCpu _ = .ok _ _ from rfl)) ?_
      refine Eq.trans (set_register_spec .Acc _ _) ?_
      norm_num [memRead, List.set, regIdx, hnn, hcomb]
    have hrun : (do step; step : M Unit)
        { memory := [(0, 0x12), (1, 1), (2, a / 256), (3, a % 256), (4, 0x13), (5, a / 256), (6, a % 256), (7, 1)],
          registers := ([0, v, 0, 0, 0, 0, 0, 0, 0, 0, 65534, 65534] : List Nat),
          stack_frame_size := 0 } =
        .ok () { memory := [(a + 1, v / 256 % 256), (a, v % 256), (0, 0x12), (1, 1), (2, a / 256), (3, a % 256), (4, 0x13), (5, a / 256), (6, a % 256), (7, 1)],
                 registers := ([8, v, 0, 0, 0, 0, 0, 0, 0, 0, 65534, 65534] : List Nat),
                 stack_frame_size := 0 } := by
      refine Eq.trans (bind_ok _ _ _ _ _ h1) ?_
      exact h2
    rw [hrun]
    exact ⟨rfl, rfl⟩
  · rw [show c10State a 2 v =
      { memory := [(0, 0x12), (1, 2), (2, a / 256), (3, a % 256), (4, 0x13), (5, a / 256), (6, a % 256), (7, 2)],
        registers := [0, 0, v, 0, 0, 0, 0, 0, 0, 0, 65534, 65534],
        stack_frame_size := 0 } from rfl]
    have haddr : a / 256 * 256 + a % 256 = a := by omega
    have hn4 : ¬(a + 1 = 4) := by omega
    have hn5 : ¬(a + 1 = 5) := by omega
    have hn6 : ¬(a + 1 = 6) := by omega
    have hn7 : ¬(a + 1 = 7) := by omega
    have hm4 : ¬(a = 4) := by omega
    have hm5 : ¬(a = 5) := by omega
    have hm6 : ¬(a = 6) := by omega
    have hm7 : ¬(a = 7) := by omega
    have hnn : ¬(a + 1 = a) := by omega
    have hcomb : v / 256 % 256 * 256 + v % 256 = v := by omega
    have h1 : step { memory := [(0, 0x12), (1, 2), (2, a / 256), (3, a % 256), (4, 0x13), (5, a / 256), (6, a % 256), (7, 2)],
                     registers := ([0, 0, v, 0, 0, 0, 0, 0, 0, 0, 65534, 65534] : List Nat),
                     stack_frame_size := 0 } =
        .ok () { memory := [(a + 1, v / 256 % 256), (a, v % 256), (0, 0x12), (1, 2), (2, a / 256), (3, a % 256), (4, 0x13), (5, a / 256), (6, a % 256), (7, 2)],
                 registers := ([4, 0, v, 0, 0, 0, 0, 0, 0, 0, 65534, 65534] : List Nat),
                 stack_frame_size := 0 } := by
      simp only [step]
      refine Eq.trans (bind_ok _ _ _ _ _ (fetch_spec _ 0 rfl (by norm_num))) ?_
      norm_num [memRead, List.set]
      norm_num [instructionTryFrom, execute]
      refine Eq.trans (bind_ok _ _ _ _ _ (fetch_register_index_spec _ 1 rfl (by norm_num))) ?_
      norm_num [memRead, List.set, register_names, List.get?]
      refine Eq.trans (bind_ok _ _ _ _ _ (get_register_spec .R1 _ _ rfl)) ?_
      refine Eq.trans (bind_ok _ _ _ _ _ (fetch16_spec _ 2 rfl (by norm_num))) ?_
      norm_num [memRead, List.set]
      rw [haddr]
      rfl
    have h2 : step { memory := [(a + 1, v / 256 % 256), (a, v % 256), (0, 0x12), (1, 2), (2, a / 256), (3, a % 256), (4, 0x13), (5, a / 256), (6, a % 256), (7, 2)],
                     registers := ([4, 0, v, 0, 0, 0, 0, 0, 0, 0, 65534, 65534] : List Nat),
                     stack_frame_size := 0 } =
        .ok () { memory := [(a + 1, v / 256 % 256), (a, v % 256), (0, 0x12), (1, 2), (2, a / 256), (3, a % 256), (4, 0x13), (5, a / 256), (6, a % 256), (7, 2)],
                 registers := ([8, 0, v, 0, 0, 0, 0, 0, 0, 0, 65534, 65534] : List Nat),
                 stack_frame_size := 0 } := by
      simp only [step]
      refine Eq.trans (bind_ok _ _ _ _ _ (fetch_spec _ 4 rfl (by norm_num))) ?_
      norm_num [memRead, List.set, hn4, hm4]
      norm_num [instructionTryFrom, execute]
      refine Eq.trans (bind_ok _ _ _ _ _ (fetch16_spec _ 5 rfl (by norm_num))) ?_
      norm_num [memRead, List.set, hn5, hm5, hn6, hm6]
      rw [haddr]
      refine Eq.trans (bind_ok _ _ _ _ _ (fetch_register_index_spec _ 7 rfl (by norm_num))) ?_
      norm_num [memRead, List.set, hn7, hm7, register_names, List.get?]
      refine Eq.trans (bind_ok _ _ _ _ _ (show getCpu _ = .ok _ _ from rfl)) ?_
      refine Eq.trans (set_register_spec .R1 _ _) ?_
      norm_num [memRead, List.set, regIdx, hnn, hcomb]
    have hrun : (do step; step : M Unit)
        { memory := [(0, 0x12), (1, 2), (2, a / 256), (3, a % 256), (4, 0x13), (5, a / 256), (6, a % 256), (7, 2)],
          registers := ([0, 0, v, 0, 0, 0, 0, 0, 0, 0, 65534, 65534] : List Nat),
          stack_frame_size := 0 } =
        .ok () { memory := [(a + 1, v / 256 % 256), (a, v % 256), (0, 0x12), (1, 2), (2, a / 256), (3, a % 256), (4, 0x13), (5, a / 256), (6, a % 256), (7, 2)],
                 registers := ([8, 0, v, 0, 0, 0, 0, 0, 0, 0, 65534, 65534] : List Nat),
                 stack_frame_size := 0 } := by
      refine Eq.trans (bind_ok _ _ _ _ _ h1) ?_
      exact h2
    rw [hrun]
    exact ⟨rfl, rfl⟩
  · rw [show c10State a 3 v =
      { memory := [(0, 0x12), (1, 3), (2, a / 256), (3, a % 256), (4, 0x13), (5, a / 256), (6, a % 256), (7, 3)],
        registers := [0, 0, 0, v, 0, 0, 0, 0, 0, 0, 65534, 65534],
        stack_frame_size := 0 } from rfl]
    have haddr : a / 256 * 256 + a % 256 = a := by omega
    have hn4 : ¬(a + 1 = 4) := by omega
    have hn5 : ¬(a + 1 = 5) := by omega
    have hn6 : ¬(a + 1 = 6) := by omega
    have hn7 : ¬(a + 1 = 7) := by omega
    have hm4 : ¬(a = 4) := by omega
    have hm5 : ¬(a = 5) := by omega
    have hm6 : ¬(a = 6) := by omega
    have hm7 : ¬(a = 7) := by omega
    have hnn : ¬(a + 1 = a) := by omega
    have hcomb : v / 256 % 256 * 256 + v % 256 = v := by omega
    have h1 : step { memory := [(0, 0x12), (1, 3), (2, a / 256), (3, a % 256), (4, 0x13), (5, a / 256), (6, a % 256), (7, 3)],
                     registers := ([0, 0, 0, v, 0, 0, 0, 0, 0, 0, 65534, 65534] : List Nat),
                     stack_frame_size := 0 } =
        .ok () { memory := [(a + 1, v / 256 % 256), (a, v % 256), (0, 0x12), (1, 3), (2, a / 256), (3, a % 256), (4, 0x13), (5, a / 256), (6, a % 256), (7, 3)],
                 registers := ([4, 0, 0, v, 0, 0, 0, 0, 0, 0, 65534, 65534] : List Nat),
                 stack_frame_size := 0 } := by
      simp only [step]
      refine Eq.trans (bind_ok _ _ _ _ _ (fetch_spec _ 0 rfl (by norm_num))) ?_
      norm_num [memRead, List.set]
      norm_num [instructionTryFrom, execute]
      refine Eq.trans (bind_ok _ _ _ _ _ (fetch_register_index_spec _ 1 rfl (by norm_num))) ?_
      norm_num [memRead, List.set, register_names, List.get?]
      refine Eq.trans (bind_ok _ _ _ _ _ (get_register_spec .R2 _ _ rfl)) ?_
      refine Eq.trans (bind_ok _ _ _ _ _ (fetch16_spec _ 2 rfl (by norm_num))) ?_
      norm_num [memRead, List.set]
      rw [haddr]
      rfl
    have h2 : step { memory := [(a + 1, v / 256 % 256), (a, v % 256), (0, 0x12), (1, 3), (2, a / 256), (3, a % 256), (4, 0x13), (5, a / 256), (6, a % 256), (7, 3)],
                     registers := ([4, 0, 0, v, 0, 0, 0, 0, 0, 0, 65534, 65534] : List Nat),
                     stack_frame_size := 0 } =
        .ok () { memory := [(a + 1, v / 256 % 256), (a, v % 256), (0, 0x12), (1, 3), (2, a / 256), (3, a % 256), (4, 0x13), (5, a / 256), (6, a % 256), (7, 3)],
                 registers := ([8, 0, 0, v, 0, 0, 0, 0, 0, 0, 65534, 65534] : List Nat),
                 stack_frame_size := 0 } := by
      simp only [step]
      refine Eq.trans (bind_ok _ _ _ _ _ (fetch_spec _ 4 rfl (by norm_num))) ?_
      norm_num [memRead, List.set, hn4, hm4]
      norm_num [instructionTryFrom, execute]
      refine Eq.trans (bind_ok _ _ _ _ _ (fetch16_spec _ 5 rfl (by norm_num))) ?_
      norm_num [memRead, List.set, hn5, hm5, hn6, hm6]
      rw [haddr]
      refine Eq.trans (bind_ok _ _ _ _ _ (fetch_register_index_spec _ 7 rfl (by norm_num))) ?_
      norm_num [memRead, List.set, hn7, hm7, register_names, List.get?]
      refine Eq.trans (bind_ok _ _ _ _ _ (show getCpu _ = .ok _ _ from rfl)) ?_
      refine Eq.trans (set_register_spec .R2 _ _) ?_
      norm_num [memRead, List.set, regIdx, hnn, hcomb]
    have hrun : (do step; step : M Unit)
        { memory := [(0, 0x12), (1, 3), (2, a / 256), (3, a % 256), (4, 0x13), (5, a / 256), (6, a % 256), (7, 3)],
          registers := ([0, 0, 0, v, 0, 0, 0, 0, 0, 0, 65534, 65534] : List Nat),
          stack_frame_size := 0 } =
        .ok () { memory := [(a + 1, v / 256 % 256), (a, v % 256), (0, 0x12), (1, 3), (2, a / 256), (3, a % 256), (4, 0x13), (5, a / 256), (6, a % 256), (7, 3)],
                 registers := ([8, 0, 0, v, 0, 0, 0, 0, 0, 0, 65534, 65534] : List Nat),
                 stack_frame_size := 0 } := by
      refine Eq.trans (bind_ok _ _ _ _ _ h1) ?_
      exact h2
    rw [hrun]
    exact ⟨rfl, rfl⟩
  · rw [show c10State a 4 v =
      { memory := [(0, 0x12), (1, 4), (2, a / 256), (3, a % 256), (4, 0x13), (5, a / 256), (6, a % 256), (7, 4)],
        registers := [0, 0, 0, 0, v, 0, 0, 0, 0, 0, 65534, 65534],
        stack_frame_size := 0 } from rfl]
    have haddr : a / 256 * 256 + a % 256 = a := by omega
    have hn4 : ¬(a + 1 = 4) := by omega
    have hn5 : ¬(a + 1 = 5) := by omega
    have hn6 : ¬(a + 1 = 6) := by omega
    have hn7 : ¬(a + 1 = 7) := by omega
    have hm4 : ¬(a = 4) := by omega
    have hm5 : ¬(a = 5) := by omega
    have hm6 : ¬(a = 6) := by omega
    have hm7 : ¬(a = 7) := by omega
    have hnn : ¬(a + 1 = a) := by omega
    have hcomb : v / 256 % 256 * 256 + v % 256 = v := by omega
    have h1 : step { memory := [(0, 0x12), (1, 4), (2, a / 256), (3, a % 256), (4, 0x13), (5, a / 256), (6, a % 256), (7, 4)],
                     registers := ([0, 0, 0, 0, v, 0, 0, 0, 0, 0, 65534, 65534] : List Nat),
                     stack_frame_size := 0 } =
        .ok () { memory := [(a + 1, v / 256 % 256), (a, v % 256), (0, 0x12), (1, 4), (2, a / 256), (3, a % 256), (4, 0x13), (5, a / 256), (6, a % 256), (7, 4)],
                 registers := ([4, 0, 0, 0, v, 0, 0, 0, 0, 0, 65534, 65534] : List Nat),
                 stack_frame_size := 0 } := by
      simp only [step]
      refine Eq.trans (bind_ok _ _ _ _ _ (fetch_spec _ 0 rfl (by norm_num))) ?_
      norm_num [memRead, List.set]
      norm_num [instructionTryFrom, execute]
      refine Eq.trans (bind_ok _ _ _ _ _ (fetch_register_index_spec _ 1 rfl (by norm_num))) ?_
      norm_num [memRead, List.set, register_names, List.get?]
      refine Eq.trans (bind_ok _ _ _ _ _ (get_register_spec .R3 _ _ rfl)) ?_
      refine Eq.trans (bind_ok _ _ _ _ _ (fetch16_spec _ 2 rfl (by norm_num))) ?_
      norm_num [memRead, List.set]
      rw [haddr]
      rfl
    have h2 : step { memory := [(a + 1, v / 256 % 256), (a, v % 256), (0, 0x12), (1, 4), (2, a / 256), (3, a % 256), (4, 0x13), (5, a / 256), (6, a % 256), (7, 4)],
                     registers := ([4, 0, 0, 0, v, 0, 0, 0, 0, 0, 65534, 65534] : List Nat),
                     stack_frame_size := 0 } =
        .ok () { memory := [(a + 1, v / 256 % 256), (a, v % 256), (0, 0x12), (1, 4), (2, a / 256), (3, a % 256), (4, 0x13), (5, a / 256), (6, a % 256), (7, 4)],
                 registers := ([8, 0, 0, 0, v, 0, 0, 0, 0, 0, 65534, 65534] : List Nat),
                 stack_frame_size := 0 } := by
      simp only [step]
      refine Eq.trans (bind_ok _ _ _ _ _ (fetch_spec _ 4 rfl (by norm_num))) ?_
      norm_num [memRead, List.set, hn4, hm4]
      norm_num [instructionTryFrom, execute]
      refine Eq.trans (bind_ok _ _ _ _ _ (fetch16_spec _ 5 rfl (by norm_num))) ?_
      norm_num [memRead, List.set, hn5, hm5, hn6, hm6]
      rw [haddr]
      refine Eq.trans (bind_ok _ _ _ _ _ (fetch_register_index_spec _ 7 rfl (by norm_num))) ?_
      norm_num [memRead, List.set, hn7, hm7, register_names, List.get?]
      refine Eq.trans (bind_ok _ _ _ _ _ (show getCpu _ = .ok _ _ from rfl)) ?_
      refine Eq.trans (set_register_spec .R3 _ _) ?_
      norm_num [memRead, List.set, regIdx, hnn, hcomb]
    have hrun : (do step; step : M Unit)
        { memory := [(0, 0x12), (1, 4), (2, a / 256), (3, a % 256), (4, 0x13), (5, a / 256), (6, a % 256), (7, 4)],
          registers := ([0, 0, 0, 0, v, 0, 0, 0, 0, 0, 65534, 65534] : List Nat),
          stack_frame_size := 0 } =
        .ok () { memory := [(a + 1, v / 256 % 256), (a, v % 256), (0, 0x12), (1, 4), (2, a / 256), (3, a % 256), (4, 0x13), (5, a / 256), (6, a % 256), (7, 4)],
                 registers := ([8, 0, 0, 0, v, 0, 0, 0, 0, 0, 65534, 65534] : List Nat),
                 stack_frame_size := 0 } := by
      refine Eq.trans (bind_ok _ _ _ _ _ h1) ?_
      exact h2
    rw [hrun]
    exact ⟨rfl, rfl⟩
  · rw [show c10State a 5 v =
      { memory := [(0, 0x12), (1, 5), (2, a / 256), (3, a % 256), (4, 0x13), (5, a / 256), (6, a % 256), (7, 5)],
        registers := [0, 0, 0, 0, 0, v, 0, 0, 0, 0, 65534, 65534],
        stack_frame_size := 0 } from rfl]
    have haddr : a / 256 * 256 + a % 256 = a := by omega
    have hn4 : ¬(a + 1 = 4) := by omega
    have hn5 : ¬(a + 1 = 5) := by omega
    have hn6 : ¬(a + 1 = 6) := by omega
    have hn7 : ¬(a + 1 = 7) := by omega
    have hm4 : ¬(a = 4) := by omega
    have hm5 : ¬(a = 5) := by omega
    have hm6 : ¬(a = 6) := by omega
    have hm7 : ¬(a = 7) := by omega
    have hnn : ¬(a + 1 = a) := by omega
    have hcomb : v / 256 % 256 * 256 + v % 256 = v := by omega
    have h1 : step { memory := [(0, 0x12), (1, 5), (2, a / 256), (3, a % 256), (4, 0x13), (5, a / 256), (6, a % 256), (7, 5)],
                     registers := ([0, 0, 0, 0, 0, v, 0, 0, 0, 0, 65534, 65534] : List Nat),
                     stack_frame_size := 0 } =
        .ok () { memory := [(a + 1, v / 256 % 256), (a, v % 256), (0, 0x12), (1, 5), (2, a / 256), (3, a % 256), (4, 0x13), (5, a / 256), (6, a % 256), (7, 5)],
                 registers := ([4, 0, 0, 0, 0, v, 0, 0, 0, 0, 65534, 65534] : List Nat),
                 stack_frame_size := 0 } := by
      simp only [step]
      refine Eq.trans (bind_ok _ _ _ _ _ (fetch_spec _ 0 rfl (by norm_num))) ?_
      norm_num [memRead, List.set]
      norm_num [instructionTryFrom, execute]
      refine Eq.trans (bind_ok _ _ _ _ _ (fetch_register_index_spec _ 1 rfl (by norm_num))) ?_
      norm_num [memRead, List.set, register_names, List.get?]
      refine Eq.trans (bind_ok _ _ _ _ _ (get_register_spec .R4 _ _ rfl)) ?_
      refine Eq.trans (bind_ok _ _ _ _ _ (fetch16_spec _ 2 rfl (by norm_num))) ?_
      norm_num [memRead, List.set]
      rw [haddr]
      rfl
    have h2 : step { memory := [(a + 1, v / 256 % 256), (a, v % 256), (0, 0x12), (1, 5), (2, a / 256), (3, a % 256), (4, 0x13), (5, a / 256), (6, a % 256), (7, 5)],
                     registers := ([4, 0, 0, 0, 0, v, 0, 0, 0, 0, 65534, 65534] : List Nat),
                     stack_frame_size := 0 } =
        .ok () { memory := [(a + 1, v / 256 % 256), (a, v % 256), (0, 0x12), (1, 5), (2, a / 256), (3, a % 256), (4, 0x13), (5, a / 256), (6, a % 256), (7, 5)],
                 registers := ([8, 0, 0, 0, 0, v, 0, 0, 0, 0, 65534, 65534] : List Nat),
                 stack_frame_size := 0 } := by
      simp only [step]
      refine Eq.trans (bind_ok _ _ _ _ _ (fetch_spec _ 4 rfl (by norm_num))) ?_
      norm_num [memRead, List.set, hn4, hm4]
      norm_num [instructionTryFrom, execute]
      refine Eq.trans (bind_ok _ _ _ _ _ (fetch16_spec _ 5 rfl (by norm_num))) ?_
      norm_num [memRead, List.set, hn5, hm5, hn6, hm6]
      rw [haddr]
      refine Eq.trans (bind_ok _ _ _ _ _ (fetch_register_index_spec _ 7 rfl (by norm_num))) ?_
      norm_num [memRead, List.set, hn7, hm7, register_names, List.get?]
      refine Eq.trans (bind_ok _ _ _ _ _ (show getCpu _ = .ok _ _ from rfl)) ?_
      refine Eq.trans (set_register_spec .R4 _ _) ?_
      norm_num [memRead, List.set, regIdx, hnn, hcomb]
    have hrun : (do step; step : M Unit)
        { memory := [(0, 0x12), (1, 5), (2, a / 256), (3, a % 256), (4, 0x13), (5, a / 256), (6, a % 256), (7, 5)],
          registers := ([0, 0, 0, 0, 0, v, 0, 0, 0, 0, 65534, 65534] : List Nat),
          stack_frame_size := 0 } =
        .ok () { memory := [(a + 1, v / 256 % 256), (a, v % 256), (0, 0x12), (1, 5), (2, a / 256), (3, a % 256), (4, 0x13), (5, a / 256), (6, a % 256), (7, 5)],
                 registers := ([8, 0, 0, 0, 0, v, 0, 0, 0, 0, 65534, 65534] : List Nat),
                 stack_frame_size := 0 } := by
      refine Eq.trans (bind_ok _ _ _ _ _ h1) ?_
      exact h2
    rw [hrun]
    exact ⟨rfl, rfl⟩
  · rw [show c10State a 6 v =
      { memory := [(0, 0x12), (1, 6), (2, a / 256), (3, a % 256), (4, 0x13), (5, a / 256), (6, a % 256), (7, 6)],
        registers := [0, 0, 0, 0, 0, 0, v, 0, 0, 0, 65534, 65534],
        stack_frame_size := 0 } from rfl]
    have haddr : a / 256 * 256 + a % 256 = a := by omega
    have hn4 : ¬(a + 1 = 4) := by omega
    have hn5 : ¬(a + 1 = 5) := by omega
    have hn6 : ¬(a + 1 = 6) := by omega
    have hn7 : ¬(a + 1 = 7) := by omega
    have hm4 : ¬(a = 4) := by omega
    have hm5 : ¬(a = 5) := by omega
    have hm6 : ¬(a = 6) := by omega
    have hm7 : ¬(a = 7) := by omega
    have hnn : ¬(a + 1 = a) := by omega
    have hcomb : v / 256 % 256 * 256 + v % 256 = v := by omega
    have h1 : step { memory := [(0, 0x12), (1, 6), (2, a / 256), (3, a % 256), (4, 0x13), (5, a / 256), (6, a % 256), (7, 6)],
                     registers := ([0, 0, 0, 0, 0, 0, v, 0, 0, 0, 65534, 65534] : List Nat),
                     stack_frame_size := 0 } =
        .ok () { memory := [(a + 1, v / 256 % 256), (a, v % 256), (0, 0x12), (1, 6), (2, a / 256), (3, a % 256), (4, 0x13), (5, a / 256), (6, a % 256), (7, 6)],
                 registers := ([4, 0, 0, 0, 0, 0, v, 0, 0, 0, 65534, 65534] : List Nat),
                 stack_frame_size := 0 } := by
      simp only [step]
      refine Eq.trans (bind_ok _ _ _ _ _ (fetch_spec _ 0 rfl (by norm_num))) ?_
      norm_num [memRead, List.set]
      norm_num [instructionTryFrom, execute]
      refine Eq.trans (bind_ok _ _ _ _ _ (fetch_register_index_spec _ 1 rfl (by norm_num))) ?_
      norm_num [memRead, List.set, register_names, List.get?]
      refine Eq.trans (bind_ok _ _ _ _ _ (get_register_spec .R5 _ _ rfl)) ?_
      refine Eq.trans (bind_ok _ _ _ _ _ (fetch16_spec _ 2 rfl (by norm_num))) ?_
      norm_num [memRead, List.set]
      rw [haddr]
      rfl
    have h2 : step { memory := [(a + 1, v / 256 % 256), (a, v % 256), (0, 0x12), (1, 6), (2, a / 256), (3, a % 256), (4, 0x13), (5, a / 256), (6, a % 256), (7, 6)],
                     registers := ([4, 0, 0, 0, 0, 0, v, 0, 0, 0, 65534, 65534] : List Nat),
                     stack_frame_size := 0 } =
        .ok () { memory := [(a + 1, v / 256 % 256), (a, v % 256), (0, 0x12), (1, 6), (2, a / 256), (3, a % 256), (4, 0x13), (5, a / 256), (6, a % 256), (7, 6)],
                 registers := ([8, 0, 0, 0, 0, 0, v, 0, 0, 0, 65534, 65534] : List Nat),
                 stack_frame_size := 0 } := by
      simp only [step]
      refine Eq.trans (bind_ok _ _ _ _ _ (fetch_spec _ 4 rfl (by norm_num))) ?_
      norm_num [memRead, List.set, hn4, hm4]
      norm_num [instructionTryFrom, execute]
      refine Eq.trans (bind_ok _ _ _ _ _ (fetch16_spec _ 5 rfl (by norm_num))) ?_
      norm_num [memRead, List.set, hn5, hm5, hn6, hm6]
      rw [haddr]
      refine Eq.trans (bind_ok _ _ _ _ _ (fetch_register_index_spec _ 7 rfl (by norm_num))) ?_
      norm_num [memRead, List.set, hn7, hm7, register_names, List.get?]
      refine Eq.trans (bind_ok _ _ _ _ _ (show getCpu _ = .ok _ _ from rfl)) ?_
      refine Eq.trans (set_register_spec .R5 _ _) ?_
      norm_num [memRead, List.set, regIdx, hnn, hcomb]
    have hrun : (do step; step : M Unit)
        { memory := [(0, 0x12), (1, 6), (2, a / 256), (3, a % 256), (4, 0x13), (5, a / 256), (6, a % 256), (7, 6)],
          registers := ([0, 0, 0, 0, 0, 0, v, 0, 0, 0, 65534, 65534] : List Nat),
          stack_frame_size := 0 } =
        .ok () { memory := [(a + 1, v / 256 % 256), (a, v % 256), (0, 0x12), (1, 6), (2, a / 256), (3, a % 256), (4, 0x13), (5, a / 256), (6, a % 256), (7, 6)],
                 registers := ([8, 0, 0, 0, 0, 0, v, 0, 0, 0, 65534, 65534] : List Nat),
                 stack_frame_size := 0 } := by
      refine Eq.trans (bind_ok _ _ _ _ _ h1) ?_
      exact h2
    rw [hrun]
    exact ⟨rfl, rfl⟩
  · rw [show c10State a 7 v =
      { memory := [(0, 0x12), (1, 7), (2, a / 256), (3, a % 256), (4, 0x13), (5, a / 256), (6, a % 256), (7, 7)],
        registers := [0, 0, 0, 0, 0, 0, 0, v, 0, 0, 65534, 65534],
        stack_frame_size := 0 } from rfl]
    have haddr : a / 256 * 256 + a % 256 = a := by omega
    have hn4 : ¬(a + 1 = 4) := by omega
    have hn5 : ¬(a + 1 = 5) := by omega
    have hn6 : ¬(a + 1 = 6) := by omega
    have hn7 : ¬(a + 1 = 7) := by omega
    have hm4 : ¬(a = 4) := by omega
    have hm5 : ¬(a = 5) := by omega
    have hm6 : ¬(a = 6) := by omega
    have hm7 : ¬(a = 7) := by omega
    have hnn : ¬(a + 1 = a) := by omega
    have hcomb : v / 256 % 256 * 256 + v % 256 = v := by omega
    have h1 : step { memory := [(0, 0x12), (1, 7), (2, a / 256), (3, a % 256), (4, 0x13), (5, a / 256), (6, a % 256), (7, 7)],
                     registers := ([0, 0, 0, 0, 0, 0, 0, v, 0, 0, 65534, 65534] : List Nat),
                     stack_frame_size := 0 } =
        .ok () { memory := [(a + 1, v / 256 % 256), (a, v % 256), (0, 0x12), (1, 7), (2, a / 256), (3, a % 256), (4, 0x13), (5, a / 256), (6, a % 256), (7, 7)],
                 registers := ([4, 0, 0, 0, 0, 0, 0, v, 0, 0, 65534, 65534] : List Nat),
                 stack_frame_size := 0 } := by
      simp only [step]
      refine Eq.trans (bind_ok _ _ _ _ _ (fetch_spec _ 0 rfl (by norm_num))) ?_
      norm_num [memRead, List.set]
      norm_num [instructionTryFrom, execute]
      refine Eq.trans (bind_ok _ _ _ _ _ (fetch_register_index_spec _ 1 rfl (by norm_num))) ?_
      norm_num [memRead, List.set, register_names, List.get?]
      refine Eq.trans (bind_ok _ _ _ _ _ (get_register_spec .R6 _ _ rfl)) ?_
      refine Eq.trans (bind_ok _ _ _ _ _ (fetch16_spec _ 2 rfl (by norm_num))) ?_
      norm_num [memRead, List.set]
      rw [haddr]
      rfl
    have h2 : step { memory := [(a + 1, v / 256 % 256), (a, v % 256), (0, 0x12), (1, 7), (2, a / 256), (3, a % 256), (4, 0x13), (5, a / 256), (6, a % 256), (7, 7)],
                     registers := ([4, 0, 0, 0, 0, 0, 0, v, 0, 0, 65534, 65534] : List Nat),
                     stack_frame_size := 0 } =
        .ok () { memory := [(a + 1, v / 256 % 256), (a, v % 256), (0, 0x12), (1, 7), (2, a / 256), (3, a % 256), (4, 0x13), (5, a / 256), (6, a % 256), (7, 7)],
                 registers := ([8, 0, 0, 0, 0, 0, 0, v, 0, 0, 65534, 65534] : List Nat),
                 stack_frame_size := 0 } := by
      simp only [step]
      refine Eq.trans (bind_ok _ _ _ _ _ (fetch_spec _ 4 rfl (by norm_num))) ?_
      norm_num [memRead, List.set, hn4, hm4]
      norm_num [instructionTryFrom, execute]
      refine Eq.trans (bind_ok _ _ _ _ _ (fetch16_spec _ 5 rfl (by norm_num))) ?_
      norm_num [memRead, List.set, hn5, hm5, hn6, hm6]
      rw [haddr]
      refine Eq.trans (bind_ok _ _ _ _ _ (fetch_register_index_spec _ 7 rfl (by norm_num))) ?_
      norm_num [memRead, List.set, hn7, hm7, register_names, List.get?]
      refine Eq.trans (bind_ok _ _ _ _ _ (show getCpu _ = .ok _ _ from rfl)) ?_
      refine Eq.trans (set_register_spec .R6 _ _) ?_
      norm_num [memRead, List.set, regIdx, hnn, hcomb]
    have hrun : (do step; step : M Unit)
        { memory := [(0, 0x12), (1, 7), (2, a / 256), (3, a % 256), (4, 0x13), (5, a / 256), (6, a % 256), (7, 7)],
          registers := ([0, 0, 0, 0, 0, 0, 0, v, 0, 0, 65534, 65534] : List Nat),
          stack_frame_size := 0 } =
        .ok () { memory := [(a + 1, v / 256 % 256), (a, v % 256), (0, 0x12), (1, 7), (2, a / 256), (3, a % 256), (4, 0x13), (5, a / 256), (6, a % 256), (7, 7)],
                 registers := ([8, 0, 0, 0, 0, 0, 0, v, 0, 0, 65534, 65534] : List Nat),
                 stack_frame_size := 0 } := by
      refine Eq.trans (bind_ok _ _ _ _ _ h1) ?_
      exact h2
    rw [hrun]
    exact ⟨rfl, rfl⟩
  · rw [show c10State a 8 v =
      { memory := [(0, 0x12), (1, 8), (2, a / 256), (3, a % 256), (4, 0x13), (5, a / 256), (6, a % 256), (7, 8)],
        registers := [0, 0, 0, 0, 0, 0, 0, 0, v, 0, 65534, 65534],
        stack_frame_size := 0 } from rfl]
    have haddr : a / 256 * 256 + a % 256 = a := by omega
    have hn4 : ¬(a + 1 = 4) := by omega
    have hn5 : ¬(a + 1 = 5) := by omega
    have hn6 : ¬(a + 1 = 6) := by omega
    have hn7 : ¬(a + 1 = 7) := by omega
    have hm4 : ¬(a = 4) := by omega
    have hm5 : ¬(a = 5) := by omega
    have hm6 : ¬(a = 6) := by omega
    have hm7 : ¬(a = 7) := by omega
    have hnn : ¬(a + 1 = a) := by omega
    have hcomb : v / 256 % 256 * 256 + v % 256 = v := by omega
    have h1 : step { memory := [(0, 0x12), (1, 8), (2, a / 256), (3, a % 256), (4, 0x13), (5, a / 256), (6, a % 256), (7, 8)],
                     registers := ([0, 0, 0, 0, 0, 0, 0, 0, v, 0, 65534, 65534] : List Nat),
                     stack_frame_size := 0 } =
        .ok () { memory := [(a + 1, v / 256 % 256), (a, v % 256), (0, 0x12), (1, 8), (2, a / 256), (3, a % 256), (4, 0x13), (5, a / 256), (6, a % 256), (7, 8)],
                 registers := ([4, 0, 0, 0, 0, 0, 0, 0, v, 0, 65534, 65534] : List Nat),
                 stack_frame_size := 0 } := by
      simp only [step]
      refine Eq.trans (bind_ok _ _ _ _ _ (fetch_spec _ 0 rfl (by norm_num))) ?_
      norm_num [memRead, List.set]
      norm_num [instructionTryFrom, execute]
      refine Eq.trans (bind_ok _ _ _ _ _ (fetch_register_index_spec _ 1 rfl (by norm_num))) ?_
      norm_num [memRead, List.set, register_names, List.get?]
      refine Eq.trans (bind_ok _ _ _ _ _ (get_register_spec .R7 _ _ rfl)) ?_
      refine Eq.trans (bind_ok _ _ _ _ _ (fetch16_spec _ 2 rfl (by norm_num))) ?_
      norm_num [memRead, List.set]
      rw [haddr]
      rfl
    have h2 : step { memory := [(a + 1, v / 256 % 256), (a, v % 256), (0, 0x12), (1, 8), (2, a / 256), (3, a % 256), (4, 0x13), (5, a / 256), (6, a % 256), (7, 8)],
                     registers := ([4, 0, 0, 0, 0, 0, 0, 0, v, 0, 65534, 65534] : List Nat),
                     stack_frame_size := 0 } =
        .ok () { memory := [(a + 1, v / 256 % 256), (a, v % 256), (0, 0x12), (1, 8), (2, a / 256), (3, a % 256), (4, 0x13), (5, a / 256), (6, a % 256), (7, 8)],
                 registers := ([8, 0, 0, 0, 0, 0, 0, 0, v, 0, 65534, 65534] : List Nat),
                 stack_frame_size := 0 } := by
      simp only [step]
      refine Eq.trans (bind_ok _ _ _ _ _ (fetch_spec _ 4 rfl (by norm_num))) ?_
      norm_num [memRead, List.set, hn4, hm4]
      norm_num [instructionTryFrom, execute]
      refine Eq.trans (bind_ok _ _ _ _ _ (fetch16_spec _ 5 rfl (by norm_num))) ?_
      norm_num [memRead, List.set, hn5, hm5, hn6, hm6]
      rw [haddr]
      refine Eq.trans (bind_ok _ _ _ _ _ (fetch_register_index_spec _ 7 rfl (by norm_num))) ?_
      norm_num [memRead, List.set, hn7, hm7, register_names, List.get?]
      refine Eq.trans (bind_ok _ _ _ _ _ (show getCpu _ = .ok _ _ from rfl)) ?_
      refine Eq.trans (set_register_spec .R7 _ _) ?_
      norm_num [memRead, List.set, regIdx, hnn, hcomb]
    have hrun : (do step; step : M Unit)
        { memory := [(0, 0x12), (1, 8), (2, a / 256), (3, a % 256), (4, 0x13), (5, a / 256), (6, a % 256), (7, 8)],
          registers := ([0, 0, 0, 0, 0, 0, 0, 0, v, 0, 65534, 65534] : List Nat),
          stack_frame_size := 0 } =
        .ok () { memory := [(a + 1, v / 256 % 256), (a, v % 256), (0, 0x12), (1, 8), (2, a / 256), (3, a % 256), (4, 0x13), (5, a / 256), (6, a % 256), (7, 8)],
                 registers := ([8, 0, 0, 0, 0, 0, 0, 0, v, 0, 65534, 65534] : List Nat),
                 stack_frame_size := 0 } := by
      refine Eq.trans (bind_ok _ _ _ _ _ h1) ?_
      exact h2
    rw [hrun]
    exact ⟨rfl, rfl⟩
  · rw [show c10State a 9 v =
      { memory := [(0, 0x12), (1, 9), (2, a / 256), (3, a % 256), (4, 0x13), (5, a / 256), (6, a % 256), (7, 9)],
        registers := [0, 0, 0, 0, 0, 0, 0, 0, 0, v, 65534, 65534],
        stack_frame_size := 0 } from rfl]
    have haddr : a / 256 * 256 + a % 256 = a := by omega
    have hn4 : ¬(a + 1 = 4) := by omega
    have hn5 : ¬(a + 1 = 5) := by omega
    have hn6 : ¬(a + 1 = 6) := by omega
    have hn7 : ¬(a + 1 = 7) := by omega
    have hm4 : ¬(a = 4) := by omega
    have hm5 : ¬(a = 5) := by omega
    have hm6 : ¬(a = 6) := by omega
    have hm7 : ¬(a = 7) := by omega
    have hnn : ¬(a + 1 = a) := by omega
    have hcomb : v / 256 % 256 * 256 + v % 256 = v := by omega
    have h1 : step { memory := [(0, 0x12), (1, 9), (2, a / 256), (3, a % 256), (4, 0x13), (5, a / 256), (6, a % 256), (7, 9)],
                     registers := ([0, 0, 0, 0, 0, 0, 0, 0, 0, v, 65534, 65534] : List Nat),
                     stack_frame_size := 0 } =
        .ok () { memory := [(a + 1, v / 256 % 256), (a, v % 256), (0, 0x12), (1, 9), (2, a / 256), (3, a % 256), (4, 0x13), (5, a / 256), (6, a % 256), (7, 9)],
                 registers := ([4, 0, 0, 0, 0, 0, 0, 0, 0, v, 65534, 65534] : List Nat),
                 stack_frame_size := 0 } := by
      simp only [step]
      refine Eq.trans (bind_ok _ _ _ _ _ (fetch_spec _ 0 rfl (by norm_num))) ?_
      norm_num [memRead, List.set]
      norm_num [instructionTryFrom, execute]
      refine Eq.trans (bind_ok _ _ _ _ _ (fetch_register_index_spec _ 1 rfl (by norm_num))) ?_
      norm_num [memRead, List.set, register_names, List.get?]
      refine Eq.trans (bind_ok _ _ _ _ _ (get_register_spec .R8 _ _ rfl)) ?_
      refine Eq.trans (bind_ok _ _ _ _ _ (fetch16_spec _ 2 rfl (by norm_num))) ?_
      norm_num [memRead, List.set]
      rw [haddr]
      rfl
    have h2 : step { memory := [(a + 1, v / 256 % 256), (a, v % 256), (0, 0x12), (1, 9), (2, a / 256), (3, a % 256), (4, 0x13), (5, a / 256), (6, a % 256), (7, 9)],
                     registers := ([4, 0, 0, 0, 0, 0, 0, 0, 0, v, 65534, 65534] : List Nat),
                     stack_frame_size := 0 } =
        .ok () { memory := [(a + 1, v / 256 % 256), (a, v % 256), (0, 0x12), (1, 9), (2, a / 256), (3, a % 256), (4, 0x13), (5, a / 256), (6, a % 256), (7, 9)],
                 registers := ([8, 0, 0, 0, 0, 0, 0, 0, 0, v, 65534, 65534] : List Nat),
                 stack_frame_size := 0 } := by
      simp only [step]
      refine Eq.trans (bind_ok _ _ _ _ _ (fetch_spec _ 4 rfl (by norm_num))) ?_
      norm_num [memRead, List.set, hn4, hm4]
      norm_num [instructionTryFrom, execute]
      refine Eq.trans (bind_ok _ _ _ _ _ (fetch16_spec _ 5 rfl (by norm_num))) ?_
      norm_num [memRead, List.set, hn5, hm5, hn6, hm6]
      rw [haddr]
      refine Eq.trans (bind_ok _ _ _ _ _ (fetch_register_index_spec _ 7 rfl (by norm_num))) ?_
      norm_num [memRead, List.set, hn7, hm7, register_names, List.get?]
      refine Eq.trans (bind_ok _ _ _ _ _ (show getCpu _ = .ok _ _ from rfl)) ?_
      refine Eq.trans (set_register_spec .R8 _ _) ?_
      norm_num [memRead, List.set, regIdx, hnn, hcomb]
    have hrun : (do step; step : M Unit)
        { memory := [(0, 0x12), (1, 9), (2, a / 256), (3, a % 256), (4, 0x13), (5, a / 256), (6, a % 256), (7, 9)],
          registers := ([0, 0, 0, 0, 0, 0, 0, 0, 0, v, 65534, 65534] : List Nat),
          stack_frame_size := 0 } =
        .ok () { memory := [(a + 1, v / 256 % 256), (a, v % 256), (0, 0x12), (1, 9), (2, a / 256), (3, a % 256), (4, 0x13), (5, a / 256), (6, a % 256), (7, 9)],
                 registers := ([8, 0, 0, 0, 0, 0, 0, 0, 0, v, 65534, 65534] : List Nat),
                 stack_frame_size := 0 } := by
      refine Eq.trans (bind_ok _ _ _ _ _ h1) ?_
      exact h2
    rw [hrun]
    exact ⟨rfl, rfl⟩
  · rw [show c10State a 10 v =
      { memory := [(0, 0x12), (1, 10), (2, a / 256), (3, a % 256), (4, 0x13), (5, a / 256), (6, a % 256), (7, 10)],
        registers := [0, 0, 0, 0, 0, 0, 0, 0, 0, 0, v, 65534],
        stack_frame_size := 0 } from rfl]
    have haddr : a / 256 * 256 + a % 256 = a := by omega
    have hn4 : ¬(a + 1 = 4) := by omega
    have hn5 : ¬(a + 1 = 5) := by omega
    have hn6 : ¬(a + 1 = 6) := by omega
    have hn7 : ¬(a + 1 = 7) := by omega
    have hm4 : ¬(a = 4) := by omega
    have hm5 : ¬(a = 5) := by omega
    have hm6 : ¬(a = 6) := by omega
    have hm7 : ¬(a = 7) := by omega
    have hnn : ¬(a + 1 = a) := by omega
    have hcomb : v / 256 % 256 * 256 + v % 256 = v := by omega
    have h1 : step { memory := [(0, 0x12), (1, 10), (2, a / 256), (3, a % 256), (4, 0x13), (5, a / 256), (6, a % 256), (7, 10)],
                     registers := ([0, 0, 0, 0, 0, 0, 0, 0, 0, 0, v, 65534] : List Nat),
                     stack_frame_size := 0 } =
        .ok () { memory := [(a + 1, v / 256 % 256), (a, v % 256), (0, 0x12), (1, 10), (2, a / 256), (3, a % 256), (4, 0x13), (5, a / 256), (6, a % 256), (7, 10)],
                 registers := ([4, 0, 0, 0, 0, 0, 0, 0, 0, 0, v, 65534] : List Nat),
                 stack_frame_size := 0 } := by
      simp only [step]
      refine Eq.trans (bind_ok _ _ _ _ _ (fetch_spec _ 0 rfl (by norm_num))) ?_
      norm_num [memRead, List.set]
      norm_num [instructionTryFrom, execute]
      refine Eq.trans (bind_ok _ _ _ _ _ (fetch_register_index_spec _ 1 rfl (by norm_num))) ?_
      norm_num [memRead, List.set, register_names, List.get?]
      refine Eq.trans (bind_ok _ _ _ _ _ (get_register_spec .Sp _ _ rfl)) ?_
      refine Eq.trans (bind_ok _ _ _ _ _ (fetch16_spec _ 2 rfl (by norm_num))) ?_
      norm_num [memRead, List.set]
      rw [haddr]
      rfl
    have h2 : step { memory := [(a + 1, v / 256 % 256), (a, v % 256), (0, 0x12), (1, 10), (2, a / 256), (3, a % 256), (4, 0x13), (5, a / 256), (6, a % 256), (7, 10)],
                     registers := ([4, 0, 0, 0, 0, 0, 0, 0, 0, 0, v, 65534] : List Nat),
                     stack_frame_size := 0 } =
        .ok () { memory := [(a + 1, v / 256 % 256), (a, v % 256), (0, 0x12), (1, 10), (2, a / 256), (3, a % 256), (4, 0x13), (5, a / 256), (6, a % 256), (7, 10)],
                 registers := ([8, 0, 0, 0, 0, 0, 0, 0, 0, 0, v, 65534] : List Nat),
                 stack_frame_size := 0 } := by
      simp only [step]
      refine Eq.trans (bind_ok _ _ _ _ _ (fetch_spec _ 4 rfl (by norm_num))) ?_
      norm_num [memRead, List.set, hn4, hm4]
      norm_num [instructionTryFrom, execute]
      refine Eq.trans (bind_ok _ _ _ _ _ (fetch16_spec _ 5 rfl (by norm_num))) ?_
      norm_num [memRead, List.set, hn5, hm5, hn6, hm6]
      rw [haddr]
      refine Eq.trans (bind_ok _ _ _ _ _ (fetch_register_index_spec _ 7 rfl (by norm_num))) ?_
      norm_num [memRead, List.set, hn7, hm7, register_names, List.get?]
      refine Eq.trans (bind_ok _ _ _ _ _ (show getCpu _ = .ok _ _ from rfl)) ?_
      refine Eq.trans (set_register_spec .Sp _ _) ?_
      norm_num [memRead, List.set, regIdx, hnn, hcomb]
    have hrun : (do step; step : M Unit)
        { memory := [(0, 0x12), (1, 10), (2, a / 256), (3, a % 256), (4, 0x13), (5, a / 256), (6, a % 256), (7, 10)],
          registers := ([0, 0, 0, 0, 0, 0, 0, 0, 0, 0, v, 65534] : List Nat),
          stack_frame_size := 0 } =
        .ok () { memory := [(a + 1, v / 256 % 256), (a, v % 256), (0, 0x12), (1, 10), (2, a / 256), (3, a % 256), (4, 0x13), (5, a / 256), (6, a % 256), (7, 10)],
                 registers := ([8, 0, 0, 0, 0, 0, 0, 0, 0, 0, v, 65534] : List Nat),
                 stack_frame_size := 0 } := by
      refine Eq.trans (bind_ok _ _ _ _ _ h1) ?_
      exact h2
    rw [hrun]
    exact ⟨rfl, rfl⟩
  · rw [show c10State a 11 v =
      { memory := [(0, 0x12), (1, 11), (2, a / 256), (3, a % 256), (4, 0x13), (5, a / 256), (6, a % 256), (7, 11)],
        registers := [0, 0, 0, 0, 0, 0, 0, 0, 0, 0, 65534, v],
        stack_frame_size := 0 } from rfl]
    have haddr : a / 256 * 256 + a % 256 = a := by omega
    have hn4 : ¬(a + 1 = 4) := by omega
    have hn5 : ¬(a + 1 = 5) := by omega
    have hn6 : ¬(a + 1 = 6) := by omega
    have hn7 : ¬(a + 1 = 7) := by omega
    have hm4 : ¬(a = 4) := by omega
    have hm5 : ¬(a = 5) := by omega
    have hm6 : ¬(a = 6) := by omega
    have hm7 : ¬(a = 7) := by omega
    have hnn : ¬(a + 1 = a) := by omega
    have hcomb : v / 256 % 256 * 256 + v % 256 = v := by omega
    have h1 : step { memory := [(0, 0x12), (1, 11), (2, a / 256), (3, a % 256), (4, 0x13), (5, a / 256), (6, a % 256), (7, 11)],
                     registers := ([0, 0, 0, 0, 0, 0, 0, 0, 0, 0, 65534, v] : List Nat),
                     stack_frame_size := 0 } =
        .ok () { memory := [(a + 1, v / 256 % 256), (a, v % 256), (0, 0x12), (1, 11), (2, a / 256), (3, a % 256), (4, 0x13), (5, a / 256), (6, a % 256), (7, 11)],
                 registers := ([4, 0, 0, 0, 0, 0, 0, 0, 0, 0, 65534, v] : List Nat),
                 stack_frame_size := 0 } := by
      simp only [step]
      refine Eq.trans (bind_ok _ _ _ _ _ (fetch_spec _ 0 rfl (by norm_num))) ?_
      norm_num [memRead, List.set]
      norm_num [instructionTryFrom, execute]
      refine Eq.trans (bind_ok _ _ _ _ _ (fetch_register_index_spec _ 1 rfl (by norm_num))) ?_
      norm_num [memRead, List.set, register_names, List.get?]
      refine Eq.trans (bind_ok _ _ _ _ _ (get_register_spec .Fp _ _ rfl)) ?_
      refine Eq.trans (bind_ok _ _ _ _ _ (fetch16_spec _ 2 rfl (by norm_num))) ?_
      norm_num [memRead, List.set]
      rw [haddr]
      rfl
    have h2 : step { memory := [(a + 1, v / 256 % 256), (a, v % 256), (0, 0x12), (1, 11), (2, a / 256), (3, a % 256), (4, 0x13), (5, a / 256), (6, a % 256), (7, 11)],
                     registers := ([4, 0, 0, 0, 0, 0, 0, 0, 0, 0, 65534, v] : List Nat),
                     stack_frame_size := 0 } =
        .ok () { memory := [(a + 1, v / 256 % 256), (a, v % 256), (0, 0x12), (1, 11), (2, a / 256), (3, a % 256), (4, 0x13), (5, a / 256), (6, a % 256), (7, 11)],
                 registers := ([8, 0, 0, 0, 0, 0, 0, 0, 0, 0, 65534, v] : List Nat),
                 stack_frame_size := 0 } := by
      simp only [step]
      refine Eq.trans (bind_ok _ _ _ _ _ (fetch_spec _ 4 rfl (by norm_num))) ?_
      norm_num [memRead, List.set, hn4, hm4]
      norm_num [instructionTryFrom, execute]
      refine Eq.trans (bind_ok _ _ _ _ _ (fetch16_spec _ 5 rfl (by norm_num))) ?_
      norm_num [memRead, List.set, hn5, hm5, hn6, hm6]
      rw [haddr]
      refine Eq.trans (bind_ok _ _ _ _ _ (fetch_register_index_spec _ 7 rfl (by norm_num))) ?_
      norm_num [memRead, List.set, hn7, hm7, register_names, List.get?]
      refine Eq.trans (bind_ok _ _ _ _ _ (show getCpu _ = .ok _ _ from rfl)) ?_
      refine Eq.trans (set_register_spec .Fp _ _) ?_
      norm_num [memRead, List.set, regIdx, hnn, hcomb]
    have hrun : (do step; step : M Unit)
        { memory := [(0, 0x12), (1, 11), (2, a / 256), (3, a % 256), (4, 0x13), (5, a / 256), (6, a % 256), (7, 11)],
          registers := ([0, 0, 0, 0, 0, 0, 0, 0, 0, 0, 65534, v] : List Nat),
          stack_frame_size := 0 } =
        .ok () { memory := [(a + 1, v / 256 % 256), (a, v % 256), (0, 0x12), (1, 11), (2, a / 256), (3, a % 256), (4, 0x13), (5, a / 256), (6, a % 256), (7, 11)],
                 registers := ([8, 0, 0, 0, 0, 0, 0, 0, 0, 0, 65534, v] : List Nat),
                 stack_frame_size := 0 } := by
      refine Eq.trans (bind_ok _ _ _ _ _ h1) ?_
      exact h2
    rw [hrun]
    exact ⟨rfl, rfl⟩

/-- Witness for C10 at address 100, register index 2 (`R1`), value
0x1234. -/
theorem c10_store_load_roundtrip_witness :
    ((do step; step : M Unit) (c10State 100 2 0x1234)).errOf = none ∧
    ((do step; step : M Unit) (c10State 100 2 0x1234)).stateOf.registers.get? 2 =
      some 0x1234 :=
  c10_store_load_roundtrip 100 2 0x1234 (by norm_num) (by norm_num) (by norm_num)
    (by norm_num) (by norm_num)
